import Mathlib

/-!
Verification of the `CrossDexArbitrageWithFlashLoan` Solidity contract
(`contracts/` of the repository, Solidity 0.8.26).

The contract is shallowly embedded: every storage slot becomes a field of
`ContractState`, every external function becomes a Lean function from the
pre-state (plus an environment recording the answers of the external world:
token balances, swap-call outcomes, the lender's behaviour) to
`Except SolError (post-state, emitted events, return value)`.
An `Except.error` result models an EVM revert: the caller observes the
original state and no events (full rollback).  Checked uint256 arithmetic of
Solidity 0.8 is modelled by `uAdd`/`uMul`, which fail with `Panic 0x11`
exactly when the mathematical result does not fit below `2 ^ 256`.
`int256` values are modelled as `Int` together with the explicit bounds
`MAX_INT256 = 2 ^ 255 - 1` and `MIN_INT256 = -2 ^ 255`; the contract's own
saturation logic keeps every stored value inside that range.
`keccak256` (used only to derive execution ids and compare strings) is
modelled by an injective pairing function, and the 4-byte error selectors
that feed diagnostic log strings are modelled by the error's name.
-/

/-- Addresses are modelled as natural numbers; `0` is the zero address. -/
abbrev Address := Nat

/-- `2 ^ 256`, the modulus of `uint256`. -/
def UINT256_MOD : Nat := 2 ^ 256

/-- `type(uint256).max`, used for the max-approval pattern. -/
def UINT256_MAX : Nat := 2 ^ 256 - 1

/-- `type(int256).max` (contract constant `MAX_INT256`). -/
def MAX_INT256 : Int := 2 ^ 255 - 1

/-- `type(int256).min` (contract constant `MIN_INT256`). -/
def MIN_INT256 : Int := -(2 ^ 255)

/-- `uint256(type(int256).max)` as a natural number. -/
def INT256_MAX_NAT : Nat := 2 ^ 255 - 1

/-- Contract constant `MAX_BPS = 10000` (100%). -/
def MAX_BPS : Nat := 10000

/-- Contract constant `MAX_GAS_FOR_CALL = 3000000`. -/
def MAX_GAS_FOR_CALL : Nat := 3000000

/-- The revert conditions of the contract: its custom errors (lines 12-28 of
the source), `Reason` for `require`/`revert("...")` string reverts (used by
the OpenZeppelin `Ownable`/`Pausable` modifiers and by
`executeArbitrageWrapper`), and `Panic` for Solidity 0.8 checked-arithmetic
and array-access panics. -/
inductive SolError where
  | InvalidSetup (code : Nat)
  | InvalidTokens
  | ZeroAmount
  | InvalidVaultAddress
  | DisabledToken
  | UnauthorizedCaller
  | InvalidExecutionId
  | FirstSwapFailed (reason : String)
  | NoIntermediateTokens
  | SecondSwapFailed (reason : String)
  | InsufficientProfit
  | InsufficientRepayment
  | TestModeShortfall
  | NegativeValueConversion
  | SafeCastFailure
  | Reason (reason : String)
  | Panic (code : Nat)
  deriving Repr, DecidableEq

/-- The events of the contract (lines 163-195 of the source).  Log payload
strings are built exactly as the contract builds them (via `uint2str`,
`int2str`, `addressToString`); the 4-byte selectors appearing in low-level
error logs are modelled by `errorSelector`. -/
inductive Event where
  | DexConfigured (dexName : String) (router : Address) (defaultFee maxGasUsage : Nat)
  | PoolConfigured (pool : Address) (fee minLiquidity : Nat) (dexRouter : Address)
  | TokenConfigured (token : Address) (maxAmount minAmount : Nat) (decimals : Nat)
  | ApprovalUpdated (token spender : Address) (newAmount : Nat)
  | ArbitrageExecuted (sourceToken targetToken : Address)
      (tradeInputAmount finalAccountBalance : Nat)
      (tradeFinalBalance tradeProfit expectedProfit : Int) (testMode : Bool)
  | StateLog (executionId : Nat) (stage data : String)
  | SwapEvent (executionId : Nat) (eventType : Nat) (stage : String)
      (token : Address) (actualBalance expectedBalance : Nat)
  | FlashLoanEvent (executionId : Nat) (eventType : Nat) (token : Address)
      (amount : Nat) (feeOrProfit : Int)
  deriving Repr, DecidableEq

/-- External calls made directly by the flash-loan request layer
(`executeFlashLoanArbitrage`); recorded so that "fails before any external
call" is a statement about the model, not only about rollback. -/
inductive ExtCall where
  | balanceOf (token : Address)
  | flashLoan (recipient : Address) (tokens amounts : List Nat) (userData : Nat)
  deriving Repr, DecidableEq

/-- `DexConfig` struct (lines 72-79).  The two nested mappings are modelled
as Boolean-valued functions. -/
structure DexConfig where
  router : Address
  isEnabled : Bool
  defaultFee : Nat
  maxGasUsage : Nat
  supportedPools : Address → Bool
  supportedFees : Nat → Bool

/-- Zero-initialised `DexConfig`, the value of an untouched mapping slot. -/
def defaultDexConfig : DexConfig :=
  { router := 0, isEnabled := false, defaultFee := 0, maxGasUsage := 0,
    supportedPools := fun _ => false, supportedFees := fun _ => false }

instance : Inhabited DexConfig := ⟨defaultDexConfig⟩

/-- `PoolConfig` struct (lines 97-102). -/
structure PoolConfig where
  isEnabled : Bool
  fee : Nat
  minLiquidity : Nat
  dexRouter : Address
  deriving Repr, DecidableEq

instance : Inhabited PoolConfig := ⟨false, 0, 0, 0⟩

/-- `TokenConfig` struct (lines 105-110). -/
structure TokenConfig where
  isEnabled : Bool
  maxAmount : Nat
  minAmount : Nat
  decimals : Nat
  deriving Repr, DecidableEq

instance : Inhabited TokenConfig := ⟨false, 0, 0, 0⟩

/-- `ArbitrageParams` struct (lines 82-94); the opaque swap payloads are
modelled as strings, `bytes32` ids as naturals. -/
structure ArbitrageParams where
  sourceToken : Address
  targetToken : Address
  amount : Nat
  firstSwapData : String
  secondSwapData : String
  firstRouter : Address
  secondRouter : Address
  testMode : Bool
  expectedFirstOutput : Int
  expectedSecondOutput : Int
  executionId : Nat
  deriving Repr, DecidableEq

/-- `TradeContext` struct (lines 113-124). -/
structure TradeContext where
  sourceTokenStartBalance : Nat
  targetTokenStartBalance : Nat
  tradeInputAmount : Nat
  intermediateTokenAmount : Nat
  tradeFinalBalance : Int
  expectedFirstLegOutput : Int
  actualFirstLegOutput : Nat
  expectedSecondOutput : Int
  actualSecondOutput : Int
  executed : Bool
  deriving Repr, DecidableEq

instance : Inhabited TradeContext := ⟨0, 0, 0, 0, 0, 0, 0, 0, 0, false⟩

/-- `FlashLoanContext` struct (lines 127-139). -/
structure FlashLoanContext where
  sourceToken : Address
  targetToken : Address
  amount : Nat
  firstSwapData : String
  secondSwapData : String
  firstRouter : Address
  secondRouter : Address
  testMode : Bool
  expectedFirstOutput : Int
  expectedSecondOutput : Int
  executionId : Nat
  deriving Repr, DecidableEq

instance : Inhabited FlashLoanContext := ⟨0, 0, 0, "", "", 0, 0, false, 0, 0, 0⟩

/-- `Metrics` struct (lines 150-159). -/
structure Metrics where
  totalExecutions : Nat
  successfulExecutions : Nat
  failedExecutions : Nat
  totalProfit : Nat
  flashLoanExecutions : Nat
  flashLoanSuccessful : Nat
  flashLoanFailed : Nat
  flashLoanProfit : Nat
  deriving Repr, DecidableEq

instance : Inhabited Metrics := ⟨0, 0, 0, 0, 0, 0, 0, 0⟩

/-- The full storage of the contract plus the `Ownable`/`Pausable` slots and
the contract's own address (`address(this)`). -/
structure ContractState where
  owner : Address
  paused : Bool
  thisAddr : Address
  balancerVault : Address
  uniswapRouterAddress : Address
  traderJoeRouterAddress : Address
  dexConfigs : String → DexConfig
  poolConfigs : Address → PoolConfig
  tokenConfigs : Address → TokenConfig
  executedTrades : Nat → Bool
  tradeContexts : Nat → TradeContext
  flashLoanContexts : Nat → FlashLoanContext
  metrics : Metrics

/-- Pointwise update of a mapping (Solidity `m[k] = v`). -/
def mapSet {κ α : Type} [DecidableEq κ] (f : κ → α) (k : κ) (v : α) : κ → α :=
  fun x => if x = k then v else f x

@[simp] theorem mapSet_same {κ α : Type} [DecidableEq κ] (f : κ → α) (k : κ) (v : α) :
    mapSet f k v k = v := by
  simp [mapSet]

@[simp] theorem mapSet_other {κ α : Type} [DecidableEq κ] (f : κ → α) (k k' : κ) (v : α)
    (h : k' ≠ k) : mapSet f k v k' = f k' := by
  simp [mapSet, h]

/-- The freshly deployed contract: zero-initialised storage; the constructor
(lines 201-204) requires a non-zero vault address. -/
def initialState (vaultAddr ownerAddr thisAddr : Address) : ContractState :=
  { owner := ownerAddr, paused := false, thisAddr := thisAddr,
    balancerVault := vaultAddr, uniswapRouterAddress := 0,
    traderJoeRouterAddress := 0,
    dexConfigs := fun _ => defaultDexConfig,
    poolConfigs := fun _ => default,
    tokenConfigs := fun _ => default,
    executedTrades := fun _ => false,
    tradeContexts := fun _ => default,
    flashLoanContexts := fun _ => default,
    metrics := default }

/-- Checked `uint256` addition: Solidity 0.8 reverts with `Panic(0x11)` when
the sum does not fit into 256 bits. -/
def uAdd (a b : Nat) : Except SolError Nat :=
  if a + b < UINT256_MOD then .ok (a + b) else .error (SolError.Panic 0x11)

/-- Checked `uint256` multiplication. -/
def uMul (a b : Nat) : Except SolError Nat :=
  if a * b < UINT256_MOD then .ok (a * b) else .error (SolError.Panic 0x11)

theorem uAdd_ok {a b : Nat} (h : a + b < UINT256_MOD) : uAdd a b = .ok (a + b) := by
  simp [uAdd, h]

theorem uMul_ok {a b : Nat} (h : a * b < UINT256_MOD) : uMul a b = .ok (a * b) := by
  simp [uMul, h]

/-- `safeToUint256` (lines 211-214). -/
def safeToUint256 (value : Int) : Except SolError Nat :=
  if value < 0 then .error SolError.NegativeValueConversion else .ok value.toNat

/-- `safeToInt256` (lines 221-226): saturating conversion of a `uint256`
into `int256`. -/
def safeToInt256 (value : Nat) : Int :=
  if value > INT256_MAX_NAT then MAX_INT256 else (value : Int)

/-- Digit loop of `uint2str` with explicit fuel (the fuel strictly exceeds
the number of digits, so it never runs out). -/
def uint2strGo : Nat → Nat → List Char → List Char
  | 0, _, acc => acc
  | fuel + 1, n, acc =>
    if n = 0 then acc else uint2strGo fuel (n / 10) (Char.ofNat (48 + n % 10) :: acc)

/-- `uint2str` (lines 1376-1394): decimal representation of a `uint256`. -/
def uint2str (n : Nat) : String :=
  if n = 0 then "0" else String.mk (uint2strGo (n + 1) n [])

/-- `int2str` (lines 1107-1136). -/
def int2str (value : Int) : String :=
  if value = 0 then "0"
  else if value = MIN_INT256 then
    "-57896044618658097711785492504343953926634992332820282019728792003956564819968"
  else if value < 0 then "-" ++ uint2str (-value).toNat
  else uint2str value.toNat

/-- `toHexChar` (lines 658-664). -/
def toHexChar (nibble : Nat) : Char :=
  if nibble < 10 then Char.ofNat (48 + nibble) else Char.ofNat (97 + nibble - 10)

/-- `addressToString` (lines 1084-1100): `0x`-prefixed hex of the 20 bytes. -/
def addressToString (addr : Address) : String :=
  "0x" ++ String.mk (List.flatten ((List.range 20).map (fun i =>
    let value := addr / 256 ^ (19 - i) % 256
    [toHexChar (value / 16), toHexChar (value % 16)])))

/-- The hexadecimal selector string produced by `bytes4ToString` on a custom
error's 4-byte selector; the selector (a keccak prefix) is modelled by the
error's name. -/
def errorSelector : SolError → String
  | SolError.InvalidSetup _ => "InvalidSetup"
  | SolError.InvalidTokens => "InvalidTokens"
  | SolError.ZeroAmount => "ZeroAmount"
  | SolError.InvalidVaultAddress => "InvalidVaultAddress"
  | SolError.DisabledToken => "DisabledToken"
  | SolError.UnauthorizedCaller => "UnauthorizedCaller"
  | SolError.InvalidExecutionId => "InvalidExecutionId"
  | SolError.FirstSwapFailed _ => "FirstSwapFailed"
  | SolError.NoIntermediateTokens => "NoIntermediateTokens"
  | SolError.SecondSwapFailed _ => "SecondSwapFailed"
  | SolError.InsufficientProfit => "InsufficientProfit"
  | SolError.InsufficientRepayment => "InsufficientRepayment"
  | SolError.TestModeShortfall => "TestModeShortfall"
  | SolError.NegativeValueConversion => "NegativeValueConversion"
  | SolError.SafeCastFailure => "SafeCastFailure"
  | SolError.Reason _ => "Error"
  | SolError.Panic _ => "Panic"

/-- Injective pairing, the base of the `keccak256` model. -/
def hashPair (a b : Nat) : Nat := (a + b) * (a + b + 1) / 2 + b

/-- `keccak256(abi.encodePacked(...))` of lines 355-367, modelled as an
injective combination of the packed fields (the trailing discriminator
string `"flashloan"` is a constant tag). -/
def deriveExecutionId (sourceToken targetToken : Address) (amount : Nat)
    (firstRouter secondRouter : Address) (blockTimestamp blockNumber : Nat)
    (sender : Address) : Nat :=
  hashPair (hashPair (hashPair (hashPair sourceToken targetToken) amount)
    (hashPair firstRouter secondRouter))
    (hashPair (hashPair blockTimestamp blockNumber) sender)

/-! ## Generic result projections

An `Except.error` models a revert, so a caller that catches it keeps the
pre-state; `commit` is that caller-side view. -/

/-- The error of a reverted call, `none` for a committed one. -/
def errOf {ε α : Type} : Except ε α → Option ε
  | .ok _ => none
  | .error e => some e

/-- `true` iff the call committed. -/
def isOkE {ε α : Type} : Except ε α → Bool
  | .ok _ => true
  | .error _ => false

/-- Caller-side state after a call that returns `(state, events)`:
the new state on commit, the unchanged pre-state on revert. -/
def commit (s : ContractState) : Except SolError (ContractState × List Event) → ContractState
  | .ok (s', _) => s'
  | .error _ => s

@[simp] theorem errOf_ok {ε α : Type} (a : α) : errOf (.ok a : Except ε α) = none := rfl

@[simp] theorem errOf_error {ε α : Type} (e : ε) : errOf (.error e : Except ε α) = some e := rfl

/-! ## Configuration registry (§4.1) -/

/-- OpenZeppelin `onlyOwner`: reverts with the `Ownable` require string. -/
def onlyOwnerCheck (s : ContractState) (sender : Address) : Except SolError Unit :=
  if sender = s.owner then .ok () else .error (SolError.Reason "Ownable: caller is not the owner")

/-- The fee-tier loop of `configureDex` (lines 253-258): reverts with
`InvalidSetup(3)` on the first tier `≥ MAX_BPS`, otherwise marks every tier
supported. -/
def setSupportedFees (cfg : DexConfig) : List Nat → Except SolError DexConfig
  | [] => .ok cfg
  | t :: ts =>
    if t ≥ MAX_BPS then .error (SolError.InvalidSetup 3)
    else setSupportedFees { cfg with supportedFees := mapSet cfg.supportedFees t true } ts

/-- `configureDex` (lines 231-261).  String comparison via `keccak256`
(`_compareStrings`, lines 1075-1077) is modelled as string equality. -/
def configureDex (s : ContractState) (sender : Address) (dexName : String)
    (router : Address) (defaultFee maxGasUsage : Nat) (supportedFeeTiers : List Nat) :
    Except SolError (ContractState × List Event) :=
  match onlyOwnerCheck s sender with
  | .error e => .error e
  | .ok () =>
    if router = 0 ∨ dexName = "" then .error (SolError.InvalidSetup 2)
    else
      let config := s.dexConfigs dexName
      let config := { config with router := router, isEnabled := true,
                                  defaultFee := defaultFee, maxGasUsage := maxGasUsage }
      let s := { s with dexConfigs := mapSet s.dexConfigs dexName config }
      let s := if dexName = "uniswap" then { s with uniswapRouterAddress := router }
               else if dexName = "traderjoe" then { s with traderJoeRouterAddress := router }
               else s
      match setSupportedFees (s.dexConfigs dexName) supportedFeeTiers with
      | .error e => .error e
      | .ok cfg =>
        .ok ({ s with dexConfigs := mapSet s.dexConfigs dexName cfg },
             [Event.DexConfigured dexName router defaultFee maxGasUsage])

/-- `configurePool` (lines 266-286). -/
def configurePool (s : ContractState) (sender : Address) (pool : Address)
    (fee minLiquidity : Nat) (dexName : String) :
    Except SolError (ContractState × List Event) :=
  match onlyOwnerCheck s sender with
  | .error e => .error e
  | .ok () =>
    if pool = 0 then .error (SolError.InvalidSetup 4)
    else if !(s.dexConfigs dexName).isEnabled then .error (SolError.InvalidSetup 5)
    else if fee ≥ MAX_BPS then .error (SolError.InvalidSetup 3)
    else if (s.dexConfigs dexName).router = 0 then .error (SolError.InvalidSetup 6)
    else
      let pcfg : PoolConfig :=
        { isEnabled := true, fee := fee,
          minLiquidity := minLiquidity, dexRouter := (s.dexConfigs dexName).router }
      let s := { s with poolConfigs := mapSet s.poolConfigs pool pcfg }
      let dcfg := s.dexConfigs dexName
      let dcfg := { dcfg with supportedPools := mapSet dcfg.supportedPools pool true }
      let s := { s with dexConfigs := mapSet s.dexConfigs dexName dcfg }
      .ok (s, [Event.PoolConfigured pool fee minLiquidity ((s.dexConfigs dexName).router)])

/-- `configureToken` (lines 291-309). -/
def configureToken (s : ContractState) (sender : Address) (token : Address)
    (maxAmount minAmount : Nat) (decimals : Nat) :
    Except SolError (ContractState × List Event) :=
  match onlyOwnerCheck s sender with
  | .error e => .error e
  | .ok () =>
    if token = 0 then .error (SolError.InvalidSetup 7)
    else if maxAmount ≤ minAmount then .error (SolError.InvalidSetup 8)
    else if decimals > 18 then .error (SolError.InvalidSetup 9)
    else
      let tcfg : TokenConfig :=
        { isEnabled := true, maxAmount := maxAmount,
          minAmount := minAmount, decimals := decimals }
      .ok ({ s with tokenConfigs := mapSet s.tokenConfigs token tcfg },
           [Event.TokenConfigured token maxAmount minAmount decimals])

/-- `setTokenEnabled` (lines 1335-1339): a zero stored `decimals` is the
contract's "never configured" sentinel. -/
def setTokenEnabled (s : ContractState) (sender : Address) (token : Address)
    (isEnabled : Bool) : Except SolError (ContractState × List Event) :=
  match onlyOwnerCheck s sender with
  | .error e => .error e
  | .ok () =>
    if token = 0 then .error (SolError.InvalidSetup 7)
    else if (s.tokenConfigs token).decimals = 0 then .error (SolError.InvalidSetup 7)
    else
      let tcfg := { s.tokenConfigs token with isEnabled := isEnabled }
      .ok ({ s with tokenConfigs := mapSet s.tokenConfigs token tcfg }, [])

/-- `setDexEnabled` (lines 1346-1349). -/
def setDexEnabled (s : ContractState) (sender : Address) (dexName : String)
    (isEnabled : Bool) : Except SolError (ContractState × List Event) :=
  match onlyOwnerCheck s sender with
  | .error e => .error e
  | .ok () =>
    if (s.dexConfigs dexName).router = 0 then .error (SolError.InvalidSetup 2)
    else
      let dcfg := { s.dexConfigs dexName with isEnabled := isEnabled }
      .ok ({ s with dexConfigs := mapSet s.dexConfigs dexName dcfg }, [])

/-- `getDexConfig` view (lines 1178-1186). -/
def getDexConfig (s : ContractState) (dexName : String) : Address × Nat × Nat × Bool :=
  let config := s.dexConfigs dexName
  (config.router, config.defaultFee, config.maxGasUsage, config.isEnabled)

/-- `getPoolConfig` view (lines 1196-1204). -/
def getPoolConfig (s : ContractState) (pool : Address) : Bool × Nat × Nat × Address :=
  let config := s.poolConfigs pool
  (config.isEnabled, config.fee, config.minLiquidity, config.dexRouter)

/-- `getTokenConfig` view (lines 1214-1222). -/
def getTokenConfig (s : ContractState) (token : Address) : Bool × Nat × Nat × Nat :=
  let config := s.tokenConfigs token
  (config.isEnabled, config.maxAmount, config.minAmount, config.decimals)

/-- `getContractStats` view (lines 1242-1256).  The multiplication inside
the success-rate ternary is checked `uint256` arithmetic, so the view is a
fallible computation like every other Solidity function. -/
def getContractStats (s : ContractState) : Except SolError (Nat × Nat × Nat × Nat × Nat) :=
  let totalTrades := s.metrics.totalExecutions
  let successfulTrades := s.metrics.successfulExecutions
  let failedTrades := if s.metrics.totalExecutions > s.metrics.successfulExecutions then
      s.metrics.totalExecutions - s.metrics.successfulExecutions else 0
  if totalTrades > 0 then
    match uMul successfulTrades 10000 with
    | .error e => .error e
    | .ok m => .ok (totalTrades, successfulTrades, failedTrades, m / totalTrades,
                    s.metrics.totalProfit)
  else .ok (totalTrades, successfulTrades, failedTrades, 0, s.metrics.totalProfit)

/-! ## Lemmas about the fee-tier loop -/

theorem setSupportedFees_fail : ∀ (ts : List Nat) (cfg : DexConfig),
    (∃ t ∈ ts, MAX_BPS ≤ t) → setSupportedFees cfg ts = .error (SolError.InvalidSetup 3) := by
  intro ts
  induction ts with
  | nil => intro cfg h; simp at h
  | cons t ts ih =>
    intro cfg h
    by_cases ht : MAX_BPS ≤ t
    · simp [setSupportedFees, ht]
    · have hts : ∃ u ∈ ts, MAX_BPS ≤ u := by
        rcases h with ⟨u, hu, hle⟩
        rcases List.mem_cons.mp hu with rfl | hmem
        · exact absurd hle ht
        · exact ⟨u, hmem, hle⟩
      simp only [setSupportedFees]
      rw [if_neg ht]
      exact ih _ hts

theorem setSupportedFees_ok_of : ∀ (ts : List Nat) (cfg : DexConfig),
    (∀ t ∈ ts, t < MAX_BPS) →
    ∃ cfg', setSupportedFees cfg ts = .ok cfg' ∧
      cfg'.router = cfg.router ∧ cfg'.isEnabled = cfg.isEnabled ∧
      cfg'.defaultFee = cfg.defaultFee ∧ cfg'.maxGasUsage = cfg.maxGasUsage := by
  intro ts
  induction ts with
  | nil => intro cfg _; exact ⟨cfg, rfl, rfl, rfl, rfl, rfl⟩
  | cons t ts ih =>
    intro cfg h
    have ht : ¬ MAX_BPS ≤ t := by
      have := h t (List.mem_cons_self t ts)
      omega
    obtain ⟨cfg', hrun, h1, h2, h3, h4⟩ :=
      ih { cfg with supportedFees := mapSet cfg.supportedFees t true }
        (fun u hu => h u (List.mem_cons_of_mem t hu))
    refine ⟨cfg', ?_, h1, h2, h3, h4⟩
    simp only [setSupportedFees]
    rw [if_neg ht]
    exact hrun

theorem configureDex_ok_shape (s : ContractState) (sender : Address) (dexName : String)
    (router : Address) (defaultFee maxGasUsage : Nat) (tiers : List Nat) (cfg' : DexConfig)
    (hown : sender = s.owner) (h1 : ¬(router = 0 ∨ dexName = ""))
    (hrun : setSupportedFees
        ({ s.dexConfigs dexName with
           router := router, isEnabled := true,
           defaultFee := defaultFee, maxGasUsage := maxGasUsage }) tiers = .ok cfg') :
    isOkE (configureDex s sender dexName router defaultFee maxGasUsage tiers) = true ∧
    (commit s (configureDex s sender dexName router defaultFee maxGasUsage tiers)).dexConfigs
      dexName = cfg' := by
  have hcheck : onlyOwnerCheck s sender = .ok () := by simp [onlyOwnerCheck, hown]
  by_cases hu : dexName = "uniswap" <;> by_cases htj : dexName = "traderjoe" <;>
    simp_all [configureDex, hcheck, if_neg h1, mapSet_same, isOkE, commit]

/-- C5 (amended): for an owner call, `configureDex` fails exactly when the
router is the zero address, the name is empty, or some supplied fee tier is
`≥ 10000` bps; on success a subsequent `getDexConfig` returns the configured
`(router, defaultFee, maxGasUsage, true)` tuple.  (The spec's example tier
list `[100, 500, 3000, 10000]` therefore reverts, because
`10000 ≥ MAX_BPS`; the example scenario holds for tier lists whose entries
are all below 10000, e.g. `[100, 500, 3000]`.) -/
theorem C5_configureDex_spec (s : ContractState) (sender : Address) (dexName : String)
    (router : Address) (defaultFee maxGasUsage : Nat) (tiers : List Nat)
    (hown : sender = s.owner) :
    (isOkE (configureDex s sender dexName router defaultFee maxGasUsage tiers) = false ↔
      router = 0 ∨ dexName = "" ∨ ∃ t ∈ tiers, MAX_BPS ≤ t) ∧
    (isOkE (configureDex s sender dexName router defaultFee maxGasUsage tiers) = true →
      getDexConfig (commit s (configureDex s sender dexName router defaultFee maxGasUsage tiers))
        dexName = (router, defaultFee, maxGasUsage, true)) := by
  have hcheck : onlyOwnerCheck s sender = .ok () := by simp [onlyOwnerCheck, hown]
  by_cases h1 : router = 0 ∨ dexName = ""
  · have hres : configureDex s sender dexName router defaultFee maxGasUsage tiers =
        .error (SolError.InvalidSetup 2) := by
      simp only [configureDex, hcheck]
      rw [if_pos h1]
    rw [hres]
    refine ⟨?_, ?_⟩
    · simp only [isOkE, true_iff]
      exact Or.elim h1 (fun h => Or.inl h) (fun h => Or.inr (Or.inl h))
    · intro hok; simp [isOkE] at hok
  · by_cases h2 : ∃ t ∈ tiers, MAX_BPS ≤ t
    · have hres : ∃ e, configureDex s sender dexName router defaultFee maxGasUsage tiers =
          .error e := by
        refine ⟨SolError.InvalidSetup 3, ?_⟩
        by_cases hu : dexName = "uniswap" <;> by_cases htj : dexName = "traderjoe" <;>
          simp_all [configureDex, hcheck, if_neg h1, mapSet_same,
            setSupportedFees_fail tiers _ h2]
      obtain ⟨e, he⟩ := hres
      rw [he]
      refine ⟨?_, ?_⟩
      · simp only [isOkE, true_iff]
        exact Or.inr (Or.inr h2)
      · intro hok; simp [isOkE] at hok
    · have hlt : ∀ t ∈ tiers, t < MAX_BPS := by
        intro t ht
        by_contra hge
        exact h2 ⟨t, ht, by omega⟩
      obtain ⟨cfg', hrun, hr, hen, hdf, hmg⟩ := setSupportedFees_ok_of tiers
        ({ s.dexConfigs dexName with
           router := router, isEnabled := true,
           defaultFee := defaultFee, maxGasUsage := maxGasUsage }) hlt
      obtain ⟨hok, hcfg⟩ := configureDex_ok_shape s sender dexName router defaultFee
        maxGasUsage tiers cfg' hown h1 hrun
      refine ⟨?_, ?_⟩
      · rw [hok]
        simp only [Bool.true_eq_false, false_iff]
        push_neg
        refine ⟨fun h => absurd (Or.inl h) h1, fun h => absurd (Or.inr h) h1, ?_⟩
        intro t ht
        have := hlt t ht
        omega
      · intro _
        simp [getDexConfig, hcfg, hr, hen, hdf, hmg]

/-- C5 counterexample: the spec's example scenario 1 call
`configureDex("uniswap", ROUTER_A, 30, 3_000_000, [100, 500, 3000, 10000])`
does not succeed: the fee-tier loop rejects the tier `10000`
(`10000 ≥ MAX_BPS`) with `InvalidSetup(3)`. -/
theorem C5_configureDex_counterexample :
    errOf (configureDex (initialState 5 7 9) 7 "uniswap" 11 30 3000000
      [100, 500, 3000, 10000]) = some (SolError.InvalidSetup 3) := by
  decide

/-- C5 witness: with the tier `10000` removed, the example scenario holds:
the call succeeds and `getDexConfig("uniswap")` returns
`(ROUTER_A, 30, 3_000_000, true)`. -/
theorem C5_configureDex_witness :
    isOkE (configureDex (initialState 5 7 9) 7 "uniswap" 11 30 3000000
      [100, 500, 3000]) = true ∧
    getDexConfig (commit (initialState 5 7 9) (configureDex (initialState 5 7 9) 7 "uniswap"
      11 30 3000000 [100, 500, 3000])) "uniswap" = (11, 30, 3000000, true) := by
  have h := C5_configureDex_spec (initialState 5 7 9) 7 "uniswap" 11 30 3000000
    [100, 500, 3000] rfl
  exact ⟨by decide, h.2 (by decide)⟩

/-- Abbreviation for the `TokenConfig` literal written by `configureToken`. -/
def tokenCfgMk (maxA minA d : Nat) : TokenConfig :=
  { isEnabled := true, maxAmount := maxA, minAmount := minA, decimals := d }

/-- C8 (amended): for owner calls, `setTokenEnabled` fails exactly when the
token is the zero address or the token's stored `decimals` is `0` — the
contract's "never configured" sentinel.  Tokens never configured have
`decimals = 0` and are rejected, and any token configured with
`decimals ≥ 1` can be toggled to `b`; but a token configured via
`configureToken` with `decimals = 0` (which `configureToken` accepts) is
indistinguishable from an unconfigured one and is also rejected. -/
theorem C8_setTokenEnabled_spec (s : ContractState) (sender : Address) (token : Address)
    (b : Bool) (hown : sender = s.owner) :
    (isOkE (setTokenEnabled s sender token b) = false ↔
      token = 0 ∨ (s.tokenConfigs token).decimals = 0) ∧
    (token ≠ 0 → (s.tokenConfigs token).decimals ≠ 0 →
      (commit s (setTokenEnabled s sender token b)).tokenConfigs token =
        { s.tokenConfigs token with isEnabled := b }) ∧
    (∀ maxA minA d : Nat, token ≠ 0 → minA < maxA → d ≤ 18 → d ≠ 0 →
      isOkE (setTokenEnabled (commit s (configureToken s sender token maxA minA d))
        sender token b) = true ∧
      (commit (commit s (configureToken s sender token maxA minA d))
          (setTokenEnabled (commit s (configureToken s sender token maxA minA d))
            sender token b)).tokenConfigs token =
        { isEnabled := b, maxAmount := maxA, minAmount := minA, decimals := d }) := by
  have hcheck : onlyOwnerCheck s sender = .ok () := by simp [onlyOwnerCheck, hown]
  refine ⟨?_, ?_, ?_⟩
  · by_cases h0 : token = 0
    · simp [setTokenEnabled, hcheck, h0, isOkE]
    · by_cases hd : (s.tokenConfigs token).decimals = 0
      · simp [setTokenEnabled, hcheck, h0, hd, isOkE]
      · simp [setTokenEnabled, hcheck, h0, hd, isOkE]
  · intro h0 hd
    simp [setTokenEnabled, hcheck, h0, hd, commit, mapSet_same]
  · intro maxA minA d h0 hlt h18 hd0
    have hconf : configureToken s sender token maxA minA d =
        .ok ({ s with tokenConfigs := mapSet s.tokenConfigs token (tokenCfgMk maxA minA d) },
             [Event.TokenConfigured token maxA minA d]) := by
      simp only [configureToken, hcheck]
      rw [if_neg h0, if_neg (by omega : ¬ maxA ≤ minA), if_neg (by omega : ¬ d > 18)]
      rfl
    rw [hconf]
    constructor
    · simp [setTokenEnabled, onlyOwnerCheck, hown, commit, h0, mapSet_same, hd0, isOkE,
        tokenCfgMk]
    · simp [setTokenEnabled, onlyOwnerCheck, hown, commit, h0, mapSet_same, hd0, tokenCfgMk]

/-- C8 counterexample: `configureToken` accepts `decimals = 0`
(`configureToken(1, 2, 1, 0)` succeeds), yet the owner's subsequent
`setTokenEnabled(1, true)` reverts with `InvalidSetup(7)` — refuting the
claim that `setTokenEnabled` succeeds for every token previously configured
with any argument values `configureToken` accepts. -/
theorem C8_setTokenEnabled_counterexample :
    isOkE (configureToken (initialState 5 7 9) 7 1 2 1 0) = true ∧
    errOf (setTokenEnabled (commit (initialState 5 7 9)
      (configureToken (initialState 5 7 9) 7 1 2 1 0)) 7 1 true) =
      some (SolError.InvalidSetup 7) := by
  exact ⟨by decide, by decide⟩

/-- C8 witness: after `configureToken(1, 2, 1, 6)` the owner's
`setTokenEnabled(1, true)` succeeds and stores the enabled flag. -/
theorem C8_setTokenEnabled_witness :
    isOkE (setTokenEnabled (commit (initialState 5 7 9)
      (configureToken (initialState 5 7 9) 7 1 2 1 6)) 7 1 true) = true ∧
    (commit (commit (initialState 5 7 9) (configureToken (initialState 5 7 9) 7 1 2 1 6))
        (setTokenEnabled (commit (initialState 5 7 9)
          (configureToken (initialState 5 7 9) 7 1 2 1 6)) 7 1 true)).tokenConfigs 1 =
      { isEnabled := true, maxAmount := 2, minAmount := 1, decimals := 6 } :=
  (C8_setTokenEnabled_spec (initialState 5 7 9) 7 1 true rfl).2.2 2 1 6
    (by decide) (by decide) (by decide) (by decide)

/-- C9: `configurePool` fails whenever the named DEX is not enabled (in
particular whenever it was never configured, since a fresh deployment has
every DEX disabled), and also when the pool is the zero address, the fee is
`≥ 10000` bps, or the DEX's stored router is unset; `configureToken` fails
for every pair with `maxAmount ≤ minAmount`, including equality. -/
theorem C9_config_preconditions :
    (∀ (s : ContractState) (sender : Address) (pool : Address) (fee minLiq : Nat)
      (dexName : String),
      (pool = 0 ∨ (s.dexConfigs dexName).isEnabled = false ∨ MAX_BPS ≤ fee ∨
        (s.dexConfigs dexName).router = 0) →
      isOkE (configurePool s sender pool fee minLiq dexName) = false) ∧
    (∀ (dexName : String) (v o t : Address),
      ((initialState v o t).dexConfigs dexName).isEnabled = false) ∧
    (∀ (s : ContractState) (sender : Address) (token : Address) (maxA minA d : Nat),
      maxA ≤ minA → isOkE (configureToken s sender token maxA minA d) = false) := by
  refine ⟨?_, ?_, ?_⟩
  · intro s sender pool fee minLiq dexName hcond
    cases hchk : onlyOwnerCheck s sender with
    | error e => simp [configurePool, hchk, isOkE]
    | ok u =>
      rcases hcond with h | h | h | h
      · simp [configurePool, hchk, h, isOkE]
      · by_cases h0 : pool = 0
        · simp [configurePool, hchk, h0, isOkE]
        · simp [configurePool, hchk, h0, h, isOkE]
      · by_cases h0 : pool = 0
        · simp [configurePool, hchk, h0, isOkE]
        · by_cases hen : (s.dexConfigs dexName).isEnabled
          · simp [configurePool, hchk, h0, hen, isOkE, if_pos (by omega : fee ≥ MAX_BPS)]
          · simp [configurePool, hchk, h0, hen, isOkE]
      · by_cases h0 : pool = 0
        · simp [configurePool, hchk, h0, isOkE]
        · by_cases hen : (s.dexConfigs dexName).isEnabled
          · by_cases hf : fee ≥ MAX_BPS
            · simp [configurePool, hchk, h0, hen, hf, isOkE]
            · simp [configurePool, hchk, h0, hen, hf, h, isOkE]
          · simp [configurePool, hchk, h0, hen, isOkE]
  · intro dexName v o t
    rfl
  · intro s sender token maxA minA d hle
    cases hchk : onlyOwnerCheck s sender with
    | error e => simp [configureToken, hchk, isOkE]
    | ok u =>
      by_cases h0 : token = 0
      · simp [configureToken, hchk, h0, isOkE]
      · simp [configureToken, hchk, h0, hle, isOkE]

/-- C9 witness: `configurePool` on a fresh deployment (DEX never
configured) fails, and `configureToken` with `maxAmount = minAmount`
fails. -/
theorem C9_config_preconditions_witness :
    isOkE (configurePool (initialState 5 7 9) 7 2 30 1000 "uniswap") = false ∧
    isOkE (configureToken (initialState 5 7 9) 7 1 4 4 6) = false :=
  ⟨C9_config_preconditions.1 (initialState 5 7 9) 7 2 30 1000 "uniswap"
      (Or.inr (Or.inl (C9_config_preconditions.2.1 "uniswap" 5 7 9))),
    C9_config_preconditions.2.2 (initialState 5 7 9) 7 1 4 4 6 (by decide)⟩

/-- A metrics state whose success-rate numerator overflows `uint256`:
`2 ^ 253` recorded successes (`2 ^ 253 * 10000 ≥ 2 ^ 256`). -/
def overflowStatsState : ContractState :=
  let base := initialState 5 7 9
  { base with metrics :=
      { base.metrics with totalExecutions := 1, successfulExecutions := 2 ^ 253 } }

/-- C10 counterexample: `getContractStats` is not total on every metrics
state — when `successfulExecutions * 10000` overflows `uint256` (checked
arithmetic) the view reverts with `Panic(0x11)` instead of returning. -/
theorem C10_getContractStats_counterexample :
    errOf (getContractStats overflowStatsState) = some (SolError.Panic 0x11) := by
  decide

/-- C10 (amended): for every metrics state whose success-rate numerator
`successfulExecutions * 10000` fits in `uint256` (true of every reachable
state), `getContractStats` returns without reverting and never divides by
zero: `successRate` is `0` when `totalExecutions = 0` and
`successfulExecutions * 10000 / totalExecutions` otherwise, and
`failedTrades` is the derived clamped difference
`totalExecutions - successfulExecutions` (zero when successes exceed the
total), not the stored `metrics.failedExecutions` counter. -/
theorem C10_getContractStats_spec (s : ContractState)
    (h : s.metrics.successfulExecutions * 10000 < UINT256_MOD) :
    getContractStats s = .ok (s.metrics.totalExecutions, s.metrics.successfulExecutions,
      (if s.metrics.successfulExecutions < s.metrics.totalExecutions then
        s.metrics.totalExecutions - s.metrics.successfulExecutions else 0),
      (if 0 < s.metrics.totalExecutions then
        s.metrics.successfulExecutions * 10000 / s.metrics.totalExecutions else 0),
      s.metrics.totalProfit) := by
  by_cases ht : 0 < s.metrics.totalExecutions
  · simp [getContractStats, ht, uMul_ok h, Nat.lt_iff_add_one_le]
  · simp [getContractStats, ht]

/-- C10 witness: on a fresh deployment the stats tuple is all zeros (no
division-by-zero on `totalExecutions = 0`). -/
theorem C10_getContractStats_witness :
    getContractStats (initialState 5 7 9) = .ok (0, 0, 0, 0, 0) := by
  have h := C10_getContractStats_spec (initialState 5 7 9) (by decide)
  simpa using h

/-! ## Arbitrage engine (§4.3, `executeArbitrageInternal`, lines 671-1032)

The engine's interaction with the outside world — token balances and the two
raw router calls — is captured by an `ArbEnv`.  Sub-computations of the
function body that only decide a value and/or some diagnostic logs are
factored into helper definitions named after the source block they embed;
each returns the computed value together with the `StateLog`s that block
emits. -/

/-- Environment of one arbitrage attempt: the balances `balanceOf` reports
at each probe point, the current allowances, and the outcomes of the two
raw router calls (the returned `bytes` modelled as a string). -/
structure ArbEnv where
  initialSourceBalance : Nat
  initialTargetBalance : Nat
  allowanceFirst : Nat
  allowanceSecond : Nat
  firstSwapSucceeds : Bool
  firstSwapResult : String
  targetBalanceAfterFirstSwap : Nat
  secondSwapSucceeds : Bool
  secondSwapResult : String
  finalSourceBalance : Nat
  deriving Repr, DecidableEq

/-- The `testMode ? "true" : "false"` fragment of the diagnostic logs. -/
def boolString (b : Bool) : String := if b then "true" else "false"

/-- Lines 717-723 and 804-808: when the current allowance is below the
required amount, `_safeApprove(token, router, type(uint256).max)` runs
(emitting `ApprovalUpdated`) followed by the approval `StateLog`. -/
def routerApprovalEvents (executionId : Nat) (token router : Address)
    (currentAllowance required : Nat) (stageName : String) : List Event :=
  if currentAllowance < required then
    [Event.ApprovalUpdated token router UINT256_MAX,
     Event.StateLog executionId stageName "Updated"]
  else []

/-- Lines 726-736 and 811-821: clamp a signed expected output to zero for
event reporting, logging when it was non-positive. -/
def expectedOutputForEvent (executionId : Nat) (label : String) (value : Int) :
    Nat × List Event :=
  if value > 0 then (value.toNat, [])
  else (0, [Event.StateLog executionId "NegativeExpectedOutput" (label ++ int2str value)])

/-- Lines 775-782: tokens received by the first swap, as the positive
balance difference, zero (plus a log) otherwise. -/
def calcTargetTokenReceived (executionId : Nat) (currentTargetBalance initialTargetBalance : Nat) :
    Nat × List Event :=
  if currentTargetBalance > initialTargetBalance then
    (currentTargetBalance - initialTargetBalance, [])
  else (0, [Event.StateLog executionId "BalanceCheck" "Zero or negative balance change"])

/-- Lines 869-894: the trade profit as the signed difference of the final
and initial source-token balances, saturating at the `int256` extremes. -/
def computeTradeProfit (executionId : Nat) (initialAccountBalance finalAccountBalance : Nat) :
    Int × List Event :=
  if finalAccountBalance ≥ initialAccountBalance then
    let rawProfit := finalAccountBalance - initialAccountBalance
    if rawProfit > INT256_MAX_NAT then
      (MAX_INT256, [Event.StateLog executionId "ProfitOverflow" "Profit too large for int256"])
    else
      ((rawProfit : Int),
       [Event.StateLog executionId "ProfitCalculation" ("+" ++ uint2str rawProfit)])
  else
    let rawLoss := initialAccountBalance - finalAccountBalance
    if rawLoss > INT256_MAX_NAT then
      (MIN_INT256, [Event.StateLog executionId "LossOverflow" "Loss too large for int256"])
    else
      (-(rawLoss : Int),
       [Event.StateLog executionId "ProfitCalculation" ("-" ++ uint2str rawLoss)])

/-- Lines 896-913: `tradeFinalBalance = inputAmountInt + tradeProfit` with
explicit saturation guards. -/
def computeTradeFinalBalance (executionId : Nat) (inputAmountInt tradeProfit : Int) :
    Int × List Event :=
  if tradeProfit ≥ 0 then
    if MAX_INT256 - tradeProfit < inputAmountInt then
      (MAX_INT256, [Event.StateLog executionId "FinalBalanceOverflow" "Positive overflow"])
    else (inputAmountInt + tradeProfit, [])
  else
    if MIN_INT256 - tradeProfit > inputAmountInt then
      (MIN_INT256, [Event.StateLog executionId "FinalBalanceUnderflow" "Negative overflow"])
    else (inputAmountInt + tradeProfit, [])

/-- Lines 920-963: `expectedProfit = expectedSecondOutput - inputAmountInt`
with the source's sign-case analysis and saturation guards. -/
def computeExpectedProfit (executionId : Nat) (expectedSecondOutput inputAmountInt : Int) :
    Int × List Event :=
  if expectedSecondOutput ≥ 0 ∧ inputAmountInt ≥ 0 then
    if MAX_INT256 - expectedSecondOutput < -inputAmountInt then
      (MAX_INT256,
       [Event.StateLog executionId "ExpectedProfitCalculationError" "Positive overflow"])
    else (expectedSecondOutput - inputAmountInt, [])
  else if expectedSecondOutput < 0 ∧ inputAmountInt < 0 then
    if MIN_INT256 - expectedSecondOutput > -inputAmountInt then
      (MIN_INT256,
       [Event.StateLog executionId "ExpectedProfitCalculationError" "Negative overflow"])
    else (expectedSecondOutput - inputAmountInt, [])
  else if expectedSecondOutput ≥ 0 ∧ inputAmountInt < 0 then
    if MAX_INT256 - expectedSecondOutput < -inputAmountInt then
      (MAX_INT256,
       [Event.StateLog executionId "ExpectedProfitCalculationError" "Mixed sign overflow"])
    else (expectedSecondOutput - inputAmountInt, [])
  else
    if MIN_INT256 - expectedSecondOutput > -inputAmountInt then
      (MIN_INT256,
       [Event.StateLog executionId "ExpectedProfitCalculationError" "Mixed sign underflow"])
    else (expectedSecondOutput - inputAmountInt, [])

/-- Lines 966-972: clamp a possibly-negative trade balance to zero for the
`AfterSecondSwap` checkpoint event. -/
def finalBalanceForEventCalc (executionId : Nat) (tradeFinalBalance : Int) :
    Nat × List Event :=
  if tradeFinalBalance > 0 then (tradeFinalBalance.toNat, [])
  else (0, [Event.StateLog executionId "NegativeTradeFinalBalance" (int2str tradeFinalBalance)])

/-- Lines 1016-1031, the common tail after the profit gate: bump
`totalExecutions` (checked) and emit `ArbitrageExecuted`, returning the
trade profit. -/
def finishArbitrage (s : ContractState) (evts : List Event) (params : ArbitrageParams)
    (finalAccountBalance : Nat) (tradeFinalBalance tradeProfit expectedProfit : Int) :
    Except SolError (ContractState × List Event × Int) :=
  match uAdd s.metrics.totalExecutions 1 with
  | .error e => .error e
  | .ok te =>
    let s := { s with metrics := { s.metrics with totalExecutions := te } }
    let evts := evts ++ [Event.ArbitrageExecuted params.sourceToken params.targetToken
      params.amount finalAccountBalance tradeFinalBalance tradeProfit expectedProfit
      params.testMode]
    .ok (s, evts, tradeProfit)

/-- `executeArbitrageInternal` (lines 671-1032).  Adjacent storage writes to
the same `TradeContext` slot are batched into one `mapSet` at the point of
the block's last write; no external read intervenes, so the batching is
observationally equivalent.  Logs emitted on a path that ends in `revert`
are discarded, as the EVM discards them. -/
def executeArbitrageInternal (s : ContractState) (env : ArbEnv) (params : ArbitrageParams) :
    Except SolError (ContractState × List Event × Int) :=
  -- Replay guard (lines 672-675)
  if s.executedTrades params.executionId then .error SolError.InvalidExecutionId
  else
  let s := { s with executedTrades := mapSet s.executedTrades params.executionId true }
  -- Trade-context initialisation and starting balances (lines 678-692)
  let tc := { s.tradeContexts params.executionId with executed := false }
  let initialAccountBalance := env.initialSourceBalance
  let initialTargetBalance := env.initialTargetBalance
  let tc := { tc with
              sourceTokenStartBalance := initialAccountBalance,
              targetTokenStartBalance := initialTargetBalance,
              tradeInputAmount := params.amount,
              expectedFirstLegOutput := params.expectedFirstOutput,
              expectedSecondOutput := params.expectedSecondOutput }
  let s := { s with tradeContexts := mapSet s.tradeContexts params.executionId tc }
  -- Input log and pre-swap checkpoint (lines 695-714)
  let evts := [
    Event.StateLog params.executionId "InputContext"
      ("Amount: " ++ uint2str params.amount ++ ", Expected1: " ++
       int2str params.expectedFirstOutput ++ ", Expected2: " ++
       int2str params.expectedSecondOutput ++ ", TestMode: " ++
       boolString params.testMode),
    Event.SwapEvent params.executionId 3 "BeforeFirstSwap" params.sourceToken
      params.amount params.amount]
  -- First-router approval (lines 717-723)
  let evts := evts ++ routerApprovalEvents params.executionId params.sourceToken
    params.firstRouter env.allowanceFirst params.amount "FirstRouterApproval"
  let efo := expectedOutputForEvent params.executionId "First: " params.expectedFirstOutput
  let evts := evts ++ efo.2
  -- Swap initiation event (lines 739-746; the router rides in the token field)
  let evts := evts ++ [Event.SwapEvent params.executionId 1 "first" params.firstRouter
    params.amount efo.1]
  -- First swap raw call (lines 749-758)
  if !env.firstSwapSucceeds then
    .error (SolError.FirstSwapFailed
      (if env.firstSwapResult.length > 4 then env.firstSwapResult else "Failed First Swap"))
  else
  let evts := evts ++ [Event.StateLog params.executionId "FirstSwap" "Success"]
  -- Target-token balance check (lines 764-772)
  let currentTargetBalance := env.targetBalanceAfterFirstSwap
  let evts := evts ++ [Event.StateLog params.executionId "FirstSwapBalances"
    ("Initial: " ++ uint2str initialTargetBalance ++ ", Current: " ++
     uint2str currentTargetBalance)]
  let tr := calcTargetTokenReceived params.executionId currentTargetBalance initialTargetBalance
  let targetTokenReceived := tr.1
  let evts := evts ++ tr.2
  -- Store intermediate amounts (lines 785-786)
  let tc := { tc with
              intermediateTokenAmount := targetTokenReceived,
              actualFirstLegOutput := targetTokenReceived }
  let s := { s with tradeContexts := mapSet s.tradeContexts params.executionId tc }
  let evts := evts ++ [Event.SwapEvent params.executionId 3 "AfterFirstSwap" params.targetToken
    targetTokenReceived efo.1]
  -- Hard failure on zero intermediate tokens (lines 798-801)
  if targetTokenReceived = 0 then .error SolError.NoIntermediateTokens
  else
  -- Second-router approval (lines 804-808)
  let evts := evts ++ routerApprovalEvents params.executionId params.targetToken
    params.secondRouter env.allowanceSecond targetTokenReceived "SecondRouterApproval"
  let eso := expectedOutputForEvent params.executionId "Second: " params.expectedSecondOutput
  let evts := evts ++ eso.2
  let evts := evts ++ [Event.SwapEvent params.executionId 1 "second" params.secondRouter
    targetTokenReceived eso.1]
  -- Second swap raw call (lines 834-843)
  if !env.secondSwapSucceeds then
    .error (SolError.SecondSwapFailed
      (if env.secondSwapResult.length > 4 then env.secondSwapResult else "Failed Second Swap"))
  else
  let evts := evts ++ [Event.StateLog params.executionId "SecondSwap" "Success"]
  -- Final balance and profit computation (lines 849-894)
  let finalAccountBalance := env.finalSourceBalance
  let evts := evts ++ [Event.StateLog params.executionId "BalanceParams"
    ("Initial: " ++ uint2str initialAccountBalance ++ ", Final: " ++
     uint2str finalAccountBalance ++ ", Input: " ++ uint2str params.amount)]
  let inputAmountInt := safeToInt256 params.amount
  let tp := computeTradeProfit params.executionId initialAccountBalance finalAccountBalance
  let tradeProfit := tp.1
  let evts := evts ++ tp.2
  let tfb := computeTradeFinalBalance params.executionId inputAmountInt tradeProfit
  let tradeFinalBalance := tfb.1
  let evts := evts ++ tfb.2
  -- Store results, mark executed (lines 916-918)
  let tc := { tc with
              tradeFinalBalance := tradeFinalBalance,
              actualSecondOutput := tradeProfit,
              executed := true }
  let s := { s with tradeContexts := mapSet s.tradeContexts params.executionId tc }
  -- Expected profit (lines 920-963)
  let ep := computeExpectedProfit params.executionId params.expectedSecondOutput inputAmountInt
  let evts := evts ++ ep.2
  -- Post-swap checkpoint and profit details (lines 965-992)
  let fbe := finalBalanceForEventCalc params.executionId tradeFinalBalance
  let evts := evts ++ fbe.2
  let evts := evts ++ [Event.SwapEvent params.executionId 3 "AfterSecondSwap" params.sourceToken
    fbe.1 eso.1]
  let evts := evts ++ [Event.StateLog params.executionId "ProfitDetails"
    ("Actual: " ++ int2str tradeProfit ++ ", Expected: " ++ int2str ep.1 ++
     ", TestMode: " ++ boolString params.testMode)]
  -- Profit validation (lines 994-1014)
  if 0 < tradeProfit then
    match uAdd s.metrics.successfulExecutions 1 with
    | .error e => .error e
    | .ok succ =>
      let s := { s with metrics := { s.metrics with successfulExecutions := succ } }
      -- Redundant inner positivity check of the source (lines 1000-1004)
      if 0 < tradeProfit then
        match uAdd s.metrics.totalProfit tradeProfit.toNat with
        | .error e => .error e
        | .ok tprof =>
          let s := { s with metrics := { s.metrics with totalProfit := tprof } }
          let evts := evts ++ [Event.StateLog params.executionId "ProfitValidation" "Profitable"]
          finishArbitrage s evts params finalAccountBalance tradeFinalBalance tradeProfit ep.1
      else
        let evts := evts ++ [Event.StateLog params.executionId "MetricsUpdateWarning"
            "Failed to update metrics",
          Event.StateLog params.executionId "ProfitValidation" "Profitable"]
        finishArbitrage s evts params finalAccountBalance tradeFinalBalance tradeProfit ep.1
  else
    if !params.testMode then .error SolError.InsufficientProfit
    else
      let evts := evts ++ [Event.StateLog params.executionId "ProfitValidation" "TestMode"]
      finishArbitrage s evts params finalAccountBalance tradeFinalBalance tradeProfit ep.1

theorem uAdd_eq_ok {a b c : Nat} (h : uAdd a b = .ok c) : c = a + b := by
  unfold uAdd at h
  split at h <;> simp_all

theorem arb_not_mem_routerApprovalEvents {a b : Address} {c d : Nat} {e f g : Int} {tm : Bool}
    (id : Nat) (tok rout : Address) (alw req : Nat) (st : String) :
    Event.ArbitrageExecuted a b c d e f g tm ∉ routerApprovalEvents id tok rout alw req st := by
  unfold routerApprovalEvents
  split <;> simp

theorem arb_not_mem_expectedOutputForEvent {a b : Address} {c d : Nat} {e f g : Int} {tm : Bool}
    (id : Nat) (label : String) (v : Int) :
    Event.ArbitrageExecuted a b c d e f g tm ∉ (expectedOutputForEvent id label v).2 := by
  unfold expectedOutputForEvent
  split <;> simp

theorem arb_not_mem_calcTargetTokenReceived {a b : Address} {c d : Nat} {e f g : Int} {tm : Bool}
    (id cur ini : Nat) :
    Event.ArbitrageExecuted a b c d e f g tm ∉ (calcTargetTokenReceived id cur ini).2 := by
  unfold calcTargetTokenReceived
  split <;> simp

theorem arb_not_mem_computeTradeProfit {a b : Address} {c d : Nat} {e f g : Int} {tm : Bool}
    (id ini fin : Nat) :
    Event.ArbitrageExecuted a b c d e f g tm ∉ (computeTradeProfit id ini fin).2 := by
  simp only [computeTradeProfit]
  split <;> split <;> simp

theorem arb_not_mem_computeTradeFinalBalance {a b : Address} {c d : Nat} {e f g : Int}
    {tm : Bool} (id : Nat) (x y : Int) :
    Event.ArbitrageExecuted a b c d e f g tm ∉ (computeTradeFinalBalance id x y).2 := by
  simp only [computeTradeFinalBalance]
  split <;> split <;> simp

theorem arb_not_mem_computeExpectedProfit {a b : Address} {c d : Nat} {e f g : Int} {tm : Bool}
    (id : Nat) (x y : Int) :
    Event.ArbitrageExecuted a b c d e f g tm ∉ (computeExpectedProfit id x y).2 := by
  simp only [computeExpectedProfit]
  split <;> try split
  all_goals try split
  all_goals try split
  all_goals simp

theorem arb_not_mem_finalBalanceForEventCalc {a b : Address} {c d : Nat} {e f g : Int}
    {tm : Bool} (id : Nat) (x : Int) :
    Event.ArbitrageExecuted a b c d e f g tm ∉ (finalBalanceForEventCalc id x).2 := by
  unfold finalBalanceForEventCalc
  split <;> simp

theorem uAdd_ok_iff {a b c : Nat} : uAdd a b = .ok c ↔ a + b < UINT256_MOD ∧ c = a + b := by
  unfold uAdd
  split <;> simp_all
  omega

set_option maxHeartbeats 1600000 in
theorem executeArbitrageInternal_ok_spec
    (s : ContractState) (env : ArbEnv) (params : ArbitrageParams)
    (st : ContractState) (evts : List Event) (r : Int)
    (h : executeArbitrageInternal s env params = .ok (st, evts, r)) :
    st.metrics.totalProfit = s.metrics.totalProfit + (if 0 < r then r.toNat else 0) ∧
    st.metrics.flashLoanProfit = s.metrics.flashLoanProfit ∧
    st.executedTrades params.executionId = true ∧
    (params.testMode = false → 0 < r) ∧
    r = (computeTradeProfit params.executionId env.initialSourceBalance
          env.finalSourceBalance).1 ∧
    (∀ (a b : Address) (c d : Nat) (e f g : Int) (tm : Bool),
      Event.ArbitrageExecuted a b c d e f g tm ∈ evts → f = r ∧ tm = params.testMode) := by
  simp only [executeArbitrageInternal, finishArbitrage] at h
  repeat' split at h
  all_goals try (exact Except.noConfusion h)
  all_goals (
    simp only [Except.ok.injEq, Prod.mk.injEq] at h
    obtain ⟨hst, hevts, hr⟩ := h
    subst hst hevts hr
    refine ⟨?_, ?_, ?_, ?_, ?_, ?_⟩ <;>
      first
      | (exfalso; omega)
      | rfl
      | (intro a b c d e f g tm hmem
         simp [arb_not_mem_routerApprovalEvents, arb_not_mem_expectedOutputForEvent,
           arb_not_mem_calcTargetTokenReceived, arb_not_mem_computeTradeProfit,
           arb_not_mem_computeTradeFinalBalance, arb_not_mem_computeExpectedProfit,
           arb_not_mem_finalBalanceForEventCalc] at hmem
         tauto)
      | simp_all [uAdd_ok_iff, mapSet_same])

/-! ## Projections for the engine (EVM caller view) -/

/-- The events a caller observes: those of a committed run, none of a
reverted one. -/
def committedEvents (res : Except SolError (ContractState × List Event × Int)) : List Event :=
  match res with
  | .ok (_, evts, _) => evts
  | .error _ => []

/-- The state a caller observes after invoking the engine: the new state on
commit, the unchanged pre-state on revert (EVM rollback). -/
def arbState (s : ContractState) (env : ArbEnv) (params : ArbitrageParams) : ContractState :=
  match executeArbitrageInternal s env params with
  | .ok (st, _, _) => st
  | .error _ => s

/-- The amount the engine adds to `metrics.totalProfit`: the returned trade
profit when the run commits with strictly positive profit, `0` otherwise. -/
def arbProfitGain (s : ContractState) (env : ArbEnv) (params : ArbitrageParams) : Nat :=
  match executeArbitrageInternal s env params with
  | .ok (_, _, r) => if 0 < r then r.toNat else 0
  | .error _ => 0

/-- `calcTargetTokenReceived` returns the positive balance difference. -/
theorem calcTargetTokenReceived_val (id cur ini : Nat) (h : ini < cur) :
    (calcTargetTokenReceived id cur ini).1 = cur - ini := by
  simp [calcTargetTokenReceived, h]

/-- A trade that does not increase the source-token balance has
non-positive computed profit. -/
theorem computeTradeProfit_nonpos (id ini fin : Nat) (h : fin ≤ ini) :
    (computeTradeProfit id ini fin).1 ≤ 0 := by
  simp only [computeTradeProfit, MAX_INT256, MIN_INT256, INT256_MAX_NAT]
  split <;> split <;> push_cast <;> omega

/-- Closed form of the saturating profit computation. -/
theorem computeTradeProfit_fst (id ini fin : Nat) :
    (computeTradeProfit id ini fin).1 =
      if MAX_INT256 < (fin : Int) - ini then MAX_INT256
      else if (fin : Int) - ini < MIN_INT256 then MIN_INT256
      else (fin : Int) - ini := by
  simp only [computeTradeProfit, MAX_INT256, MIN_INT256, INT256_MAX_NAT]
  split <;> split <;> split_ifs <;> push_cast <;> omega

/-- C1: in non-test-mode runs of the arbitrage engine, a committed
`ArbitrageExecuted` event carries a strictly positive trade profit, and when
the computed trade profit is non-positive (the reachable-gate conditions
spelled out: fresh execution id, both swaps succeed, intermediate tokens
received, final source balance not above the initial one) the engine
reverts with `InsufficientProfit`, committing nothing — in particular no
`ArbitrageExecuted` event. -/
theorem C1_profit_gate (s : ContractState) (env : ArbEnv) (params : ArbitrageParams)
    (htm : params.testMode = false) :
    (∀ (a b : Address) (c d : Nat) (e f g : Int) (tm : Bool),
      Event.ArbitrageExecuted a b c d e f g tm ∈
        committedEvents (executeArbitrageInternal s env params) → 0 < f) ∧
    (s.executedTrades params.executionId = false →
      env.firstSwapSucceeds = true →
      env.initialTargetBalance < env.targetBalanceAfterFirstSwap →
      env.secondSwapSucceeds = true →
      env.finalSourceBalance ≤ env.initialSourceBalance →
      executeArbitrageInternal s env params = .error SolError.InsufficientProfit ∧
      committedEvents (executeArbitrageInternal s env params) = []) := by
  constructor
  · intro a b c d e f g tm hmem
    cases hres : executeArbitrageInternal s env params with
    | error e' => simp [committedEvents, hres] at hmem
    | ok out =>
      obtain ⟨st, evts, r⟩ := out
      rw [hres] at hmem
      simp only [committedEvents] at hmem
      have hspec := executeArbitrageInternal_ok_spec s env params st evts r hres
      have hf := (hspec.2.2.2.2.2 a b c d e f g tm hmem).1
      have hr := hspec.2.2.2.1 htm
      omega
  · intro hex hfs htb hss hbal
    have hrecv := calcTargetTokenReceived_val params.executionId
      env.targetBalanceAfterFirstSwap env.initialTargetBalance htb
    have hnp := computeTradeProfit_nonpos params.executionId env.initialSourceBalance
      env.finalSourceBalance hbal
    have hrun : executeArbitrageInternal s env params = .error SolError.InsufficientProfit := by
      simp only [executeArbitrageInternal]
      repeat' split
      all_goals first
        | rfl
        | (exfalso; omega)
        | (exfalso; simp_all)
    exact ⟨hrun, by simp [committedEvents, hrun]⟩

/-- Fresh deployment used by the concrete engine runs. -/
def state0 : ContractState := initialState 5 7 9

/-- A profitable engine environment: borrow 100, end with 105. -/
def arbEnvProfit : ArbEnv :=
  { initialSourceBalance := 100, initialTargetBalance := 0, allowanceFirst := 0,
    allowanceSecond := 0, firstSwapSucceeds := true, firstSwapResult := "",
    targetBalanceAfterFirstSwap := 50, secondSwapSucceeds := true, secondSwapResult := "",
    finalSourceBalance := 105 }

/-- The same trade ending with a loss of 5. -/
def arbEnvLoss : ArbEnv := { arbEnvProfit with finalSourceBalance := 95 }

/-- An environment whose first swap call fails. -/
def arbEnvFail : ArbEnv := { arbEnvProfit with firstSwapSucceeds := false }

/-- Concrete arbitrage parameters (non-test-mode, execution id 42). -/
def arbParams0 : ArbitrageParams :=
  { sourceToken := 1, targetToken := 2, amount := 100, firstSwapData := "",
    secondSwapData := "", firstRouter := 3, secondRouter := 4, testMode := false,
    expectedFirstOutput := 50, expectedSecondOutput := 110, executionId := 42 }

set_option maxRecDepth 100000 in
/-- C1 witness: a concrete profitable non-test-mode run commits an
`ArbitrageExecuted` event with profit `5 > 0`, and the same trade ending at
a loss reverts with `InsufficientProfit` committing nothing. -/
theorem C1_profit_gate_witness :
    (0 : Int) < 5 ∧
    executeArbitrageInternal state0 arbEnvLoss arbParams0 =
      .error SolError.InsufficientProfit ∧
    committedEvents (executeArbitrageInternal state0 arbEnvLoss arbParams0) = [] :=
  ⟨(C1_profit_gate state0 arbEnvProfit arbParams0 rfl).1 1 2 100 105 105 5 10 false
      (by decide),
    (C1_profit_gate state0 arbEnvLoss arbParams0 rfl).2 rfl rfl (by decide) rfl (by decide)⟩

/-- C2 (amended): if a run of the arbitrage engine with some execution id
completes without reverting, then every later run with the same execution
id reverts with `InvalidExecutionId` (the committed `executedTrades` mark);
a reverted first run, however, rolls its mark back with the rest of the
transaction, so it does not block a second run. -/
theorem C2_replay_protection (s : ContractState) (env : ArbEnv) (params : ArbitrageParams)
    (h : isOkE (executeArbitrageInternal s env params) = true) (env' : ArbEnv) :
    executeArbitrageInternal (arbState s env params) env' params =
      .error SolError.InvalidExecutionId := by
  cases hres : executeArbitrageInternal s env params with
  | error e => simp [isOkE, hres] at h
  | ok out =>
    obtain ⟨st, evts, r⟩ := out
    have hspec := executeArbitrageInternal_ok_spec s env params st evts r hres
    have hex : st.executedTrades params.executionId = true := hspec.2.2.1
    simp only [arbState, hres]
    simp [executeArbitrageInternal, hex]

set_option maxRecDepth 100000 in
/-- C2 witness: after the committed profitable run, re-running the engine
with the same execution id (any environment) reverts with
`InvalidExecutionId`. -/
theorem C2_replay_protection_witness :
    isOkE (executeArbitrageInternal state0 arbEnvProfit arbParams0) = true ∧
    executeArbitrageInternal (arbState state0 arbEnvProfit arbParams0) arbEnvProfit arbParams0 =
      .error SolError.InvalidExecutionId :=
  ⟨by decide, C2_replay_protection state0 arbEnvProfit arbParams0 (by decide) arbEnvProfit⟩

set_option maxRecDepth 100000 in
/-- C2 counterexample: the claim as stated — the second run fails with
`InvalidExecutionId` regardless of the first run's outcome — is false when
the first run fails: a first run whose leg-1 swap fails reverts with
`FirstSwapFailed`, the EVM rolls back its `executedTrades` mark (the caller
keeps the pre-state, `arbState`), and the second run with the very same
execution id then completes successfully instead of reverting with
`InvalidExecutionId`. -/
theorem C2_replay_protection_counterexample :
    errOf (executeArbitrageInternal state0 arbEnvFail arbParams0) =
      some (SolError.FirstSwapFailed "Failed First Swap") ∧
    isOkE (executeArbitrageInternal (arbState state0 arbEnvFail arbParams0)
      arbEnvProfit arbParams0) = true :=
  ⟨by decide, by decide⟩

/-- C3: the recorded trade profit is the exact signed difference
`final - initial` whenever that difference is representable in `int256`,
the maximum `int256` value when the mathematical profit exceeds it, and the
minimum `int256` value when the mathematical loss exceeds the representable
range; and every committed engine run returns exactly this computed
value. -/
theorem C3_saturating_profit (executionId initial finalBal : Nat) :
    ((MIN_INT256 ≤ (finalBal : Int) - initial ∧ (finalBal : Int) - initial ≤ MAX_INT256 →
        (computeTradeProfit executionId initial finalBal).1 = (finalBal : Int) - initial) ∧
     (MAX_INT256 < (finalBal : Int) - initial →
        (computeTradeProfit executionId initial finalBal).1 = MAX_INT256) ∧
     ((finalBal : Int) - initial < MIN_INT256 →
        (computeTradeProfit executionId initial finalBal).1 = MIN_INT256)) ∧
    (∀ (s : ContractState) (env : ArbEnv) (params : ArbitrageParams) (st : ContractState)
       (evts : List Event) (r : Int),
       executeArbitrageInternal s env params = .ok (st, evts, r) →
       r = (computeTradeProfit params.executionId env.initialSourceBalance
             env.finalSourceBalance).1) := by
  refine ⟨⟨?_, ?_, ?_⟩, ?_⟩
  · intro hd
    rw [computeTradeProfit_fst]
    simp only [MAX_INT256, MIN_INT256] at hd ⊢
    rw [if_neg (by omega), if_neg (by omega)]
  · intro hd
    rw [computeTradeProfit_fst]
    simp only [MAX_INT256, MIN_INT256] at hd ⊢
    rw [if_pos hd]
  · intro hd
    rw [computeTradeProfit_fst]
    simp only [MAX_INT256, MIN_INT256] at hd ⊢
    rw [if_neg (by omega), if_pos hd]
  · intro s env params st evts r hres
    exact (executeArbitrageInternal_ok_spec s env params st evts r hres).2.2.2.2.1

set_option maxRecDepth 100000 in
/-- C3 witness: concrete instances of all three regimes — an in-range
difference, a profit past `int256.max` clamped to `MAX_INT256`, and a loss
past the representable range clamped to `MIN_INT256` — plus the concrete
committed run returning the computed value. -/
theorem C3_saturating_profit_witness :
    (computeTradeProfit 42 10 17).1 = 7 ∧
    (computeTradeProfit 42 0 (2 ^ 256)).1 = MAX_INT256 ∧
    (computeTradeProfit 42 (2 ^ 256) 0).1 = MIN_INT256 := by
  refine ⟨?_, ?_, ?_⟩
  · have h := (C3_saturating_profit 42 10 17).1.1 (by decide)
    simpa using h
  · exact (C3_saturating_profit 42 0 (2 ^ 256)).1.2.1 (by decide)
  · exact (C3_saturating_profit 42 (2 ^ 256) 0).1.2.2 (by decide)

/-! ## Flash-loan orchestrator (§4.2, lines 311-635)

`receiveFlashLoan`'s interaction with the world is a `ReceiveEnv`; the
request layer `executeFlashLoanArbitrage` additionally sees block data, the
lender's behaviour (`vaultFailure` for a revert of the lender itself,
otherwise the lender calls back `receiveFlashLoan`), and balance probes.
The raw `IERC20.transfer` repaying the loan (line 622) is not inspected by
the contract and is modelled as succeeding. -/

/-- Environment of one `receiveFlashLoan` callback. -/
structure ReceiveEnv where
  sender : Address
  arbEnv : ArbEnv
  currentBalance : Nat
  ownerTransferSucceeds : Bool
  deriving Repr, DecidableEq

/-- `executeArbitrageWrapper` (lines 1039-1043): self-call boundary letting
the callback catch engine failures. -/
def executeArbitrageWrapper (s : ContractState) (env : ArbEnv) (sender : Address)
    (params : ArbitrageParams) : Except SolError (ContractState × List Event × Int) :=
  if sender ≠ s.thisAddr then .error (SolError.Reason "Unauthorized")
  else executeArbitrageInternal s env params

/-- The `ArbitrageParams` built from a stored `FlashLoanContext`
(lines 531-543). -/
def contextParams (context : FlashLoanContext) (executionId : Nat) : ArbitrageParams :=
  { sourceToken := context.sourceToken, targetToken := context.targetToken,
    amount := context.amount, firstSwapData := context.firstSwapData,
    secondSwapData := context.secondSwapData, firstRouter := context.firstRouter,
    secondRouter := context.secondRouter, testMode := context.testMode,
    expectedFirstOutput := context.expectedFirstOutput,
    expectedSecondOutput := context.expectedSecondOutput, executionId := executionId }

/-- `tradeContexts[executionId].executed = false`, the bookkeeping done in
each catch arm of the callback (lines 551-552, 559-560, 574-575). -/
def setTradeContextExecutedFalse (s : ContractState) (executionId : Nat) : ContractState :=
  let tc := { s.tradeContexts executionId with executed := false }
  { s with tradeContexts := mapSet s.tradeContexts executionId tc }

/-- Lines 579-587: add a strictly positive profit of a successful arbitrage
to `metrics.flashLoanProfit` (checked), log a warning otherwise. -/
def addFlashLoanProfit (s : ContractState) (evts : List Event) (executionId : Nat)
    (arbitrageSuccess : Bool) (profit : Int) :
    Except SolError (ContractState × List Event) :=
  if arbitrageSuccess then
    if 0 < profit then
      match uAdd s.metrics.flashLoanProfit profit.toNat with
      | .error e => .error e
      | .ok fp => .ok ({ s with metrics := { s.metrics with flashLoanProfit := fp } }, evts)
    else
      .ok (s, evts ++ [Event.StateLog executionId "MetricsWarning"
        "Profit not added to metrics (negative)"])
  else .ok (s, evts)

/-- Lines 622-634: repay the lender (transfer not inspected), emit the
completion event, delete the flash-loan context. -/
def receiveFlashLoanFinish (s : ContractState) (evts : List Event)
    (context : FlashLoanContext) (executionId : Nat) (profit : Int) :
    Except SolError (ContractState × List Event) :=
  let evts := evts ++ [Event.FlashLoanEvent executionId 2 context.sourceToken
    context.amount profit]
  let s := { s with flashLoanContexts := mapSet s.flashLoanContexts executionId default }
  .ok (s, evts)

/-- Lines 589-634, the repayment tail of the callback: compute
`amounts[0] + feeAmounts[0]` (array access panics on empty arrays, the
checked addition on overflow), check the balance, cover a test-mode
shortfall from the owner or revert, then finish. -/
def receiveFlashLoanTail (s : ContractState) (evts : List Event)
    (context : FlashLoanContext) (executionId : Nat) (env : ReceiveEnv)
    (amounts feeAmounts : List Nat) (profit : Int) :
    Except SolError (ContractState × List Event) :=
  match amounts, feeAmounts with
  | amount0 :: _, fee0 :: _ =>
    (match uAdd amount0 fee0 with
     | .error e => .error e
     | .ok repayAmount =>
       let currentBalance := env.currentBalance
       let evts := evts ++ [Event.StateLog executionId "RepaymentInfo"
         ("Principal: " ++ uint2str amount0 ++ ", Fee: " ++ uint2str fee0 ++
          ", Total: " ++ uint2str repayAmount ++ ", Balance: " ++ uint2str currentBalance)]
       if currentBalance < repayAmount then
         if context.testMode then
           if env.ownerTransferSucceeds then
             receiveFlashLoanFinish s
               (evts ++ [Event.StateLog executionId "TestModeShortfall" "Covered by owner"])
               context executionId profit
           else .error SolError.TestModeShortfall
         else .error SolError.InsufficientRepayment
       else receiveFlashLoanFinish s evts context executionId profit)
  | _, _ => .error (SolError.Panic 0x32)

/-- The common body of the three catch arms (lines 547-576): record the
failure in the trade context and emit the arm's diagnostic log — the
`Error(string)` arm for reason-string reverts, the `Panic` arm for panic
codes, the raw-data arm (logging the selector) for everything else,
custom errors included. -/
def catchArb (s : ContractState) (evts : List Event) (executionId : Nat)
    (e : SolError) : ContractState × List Event :=
  (setTradeContextExecutedFalse s executionId,
   evts ++ [match e with
     | SolError.Reason reason =>
       Event.StateLog executionId "ArbitrageExecutionError" reason
     | SolError.Panic errorCode =>
       Event.StateLog executionId "ArithmeticError"
         (if errorCode = 0x11 then "Arithmetic operation"
          else if errorCode = 0x01 then "Assert failed"
          else if errorCode = 0x12 then "Division by zero" else "Other panic")
     | e =>
       Event.StateLog executionId "ArbitrageExecution"
         ("Failed with error: " ++ "Error sig: " ++ errorSelector e)])

/-- `receiveFlashLoan` (lines 498-635).  Solidity `try`/`catch` around the
self-call distinguishes `Error(string)` reverts, `Panic` codes, and raw
error data (`catchArb`). -/
def receiveFlashLoan (s : ContractState) (env : ReceiveEnv) (amounts feeAmounts : List Nat)
    (userData : Nat) : Except SolError (ContractState × List Event) :=
  if env.sender ≠ s.balancerVault then .error SolError.UnauthorizedCaller
  else
  let executionId := userData
  let context := s.flashLoanContexts executionId
  if context.executionId ≠ executionId then .error SolError.InvalidExecutionId
  else
  let evts := [Event.StateLog executionId "FlashLoanCallback"
    ("Starting callback, token: " ++ addressToString context.sourceToken ++
     ", amount: " ++ uint2str context.amount)]
  match executeArbitrageWrapper s env.arbEnv s.thisAddr (contextParams context executionId) with
  | .ok (st, innerEvts, result) =>
    let evts := evts ++ innerEvts ++
      [Event.StateLog executionId "ArbitrageExecution" "Success"]
    (match addFlashLoanProfit st evts executionId true result with
     | .error e => .error e
     | .ok (st2, evts2) =>
       receiveFlashLoanTail st2 evts2 context executionId env amounts feeAmounts result)
  | .error e =>
    let se := catchArb s evts executionId e
    (match addFlashLoanProfit se.1 se.2 executionId false 0 with
     | .error e2 => .error e2
     | .ok (st2, evts2) =>
       receiveFlashLoanTail st2 evts2 context executionId env amounts feeAmounts 0)

/-- Environment of one `executeFlashLoanArbitrage` call: block data and
caller (feeding the derived execution id), the pre-call balance probe, the
lender's behaviour — `vaultFailure = some e` when the lender call itself
reverts with `e` before completing, otherwise the lender calls back
`receiveFlashLoan` under `renv` with fee `flashLoanFee` (always `0` for
Balancer) — and the post-call balance probes. -/
structure FlashEnv where
  blockTimestamp : Nat
  blockNumber : Nat
  sender : Address
  preCallBalance : Nat
  vaultFailure : Option SolError
  renv : ReceiveEnv
  flashLoanFee : Nat
  postSuccessBalance : Nat
  postFailureBalance : Nat
  deriving Repr, DecidableEq

/-- The `FlashLoanContext` literal stored before requesting the loan
(lines 370-382). -/
def flashContextOf (sourceToken targetToken : Address) (amount : Nat)
    (firstSwapData secondSwapData : String) (firstRouter secondRouter : Address)
    (testMode : Bool) (expectedFirstOutput expectedSecondOutput : Int)
    (executionId : Nat) : FlashLoanContext :=
  { sourceToken := sourceToken, targetToken := targetToken, amount := amount,
    firstSwapData := firstSwapData, secondSwapData := secondSwapData,
    firstRouter := firstRouter, secondRouter := secondRouter, testMode := testMode,
    expectedFirstOutput := expectedFirstOutput,
    expectedSecondOutput := expectedSecondOutput, executionId := executionId }

/-- `flashLoanContexts[executionId] = ctx`. -/
def storeFlashLoanContext (s : ContractState) (executionId : Nat)
    (ctx : FlashLoanContext) : ContractState :=
  { s with flashLoanContexts := mapSet s.flashLoanContexts executionId ctx }

/-- The lender's `flashLoan` primitive (lines 407-412): either the lender
itself reverts, or it lends `amount`, invokes the borrower's
`receiveFlashLoan` with singleton token/amount/fee arrays and the id as
user data, and requires repayment (enforced inside the callback's model by
the repayment check and transfer). -/
def vaultFlashLoanCall (s : ContractState) (env : FlashEnv) (amount : Nat)
    (executionId : Nat) : Except SolError (ContractState × List Event) :=
  match env.vaultFailure with
  | some e => .error e
  | none => receiveFlashLoan s env.renv [amount] [env.flashLoanFee] executionId

/-- The panic-code decoder of the `catch Panic` arm (lines 446-456). -/
def panicReason (errorCode : Nat) : String :=
  if errorCode = 0x01 then "Assertion failed"
  else if errorCode = 0x11 then "Arithmetic operation underflow or overflow"
  else if errorCode = 0x12 then "Division or modulo by zero"
  else if errorCode = 0x21 then "Invalid enum value"
  else if errorCode = 0x22 then "Storage byte array is incorrectly encoded"
  else if errorCode = 0x31 then "calldata is too short"
  else if errorCode = 0x32 then "Return data too short"
  else if errorCode = 0x41 then "Invalid array length"
  else if errorCode = 0x51 then "Invalid memory array access"
  else "Unknown panic code: " ++ uint2str errorCode

/-- The shared tail of the three catch arms (lines 436-443, 458-466,
479-487): bump the failure counters (checked), delete the context, probe
and return the current balance. -/
def flashLoanCatchTail (s : ContractState) (evts : List Event) (calls : List ExtCall)
    (sourceToken : Address) (executionId : Nat) (env : FlashEnv) :
    Except (SolError × List ExtCall) (ContractState × List Event × List ExtCall × Nat) :=
  match uAdd s.metrics.flashLoanFailed 1 with
  | .error e => .error (e, calls)
  | .ok ff =>
    match uAdd s.metrics.flashLoanExecutions 1 with
    | .error e => .error (e, calls)
    | .ok fe =>
      let s := { s with metrics :=
        { s.metrics with flashLoanFailed := ff, flashLoanExecutions := fe } }
      let s := { s with flashLoanContexts := mapSet s.flashLoanContexts executionId default }
      let calls := calls ++ [ExtCall.balanceOf sourceToken]
      .ok (s, evts, calls, env.postFailureBalance)

/-- `executeFlashLoanArbitrage` (lines 325-489).  Errors carry the list of
external calls attempted before the revert; the `nonReentrant` modifier is
enforced by the sequential execution model. -/
def executeFlashLoanArbitrage (s : ContractState) (env : FlashEnv)
    (sourceToken targetToken : Address) (amount : Nat)
    (firstSwapData secondSwapData : String) (firstRouter secondRouter : Address)
    (testMode : Bool) (expectedFirstOutput expectedSecondOutput : Int) :
    Except (SolError × List ExtCall) (ContractState × List Event × List ExtCall × Nat) :=
  -- `whenNotPaused` modifier
  if s.paused then .error (SolError.Reason "Pausable: paused", [])
  -- Validations (lines 338-341)
  else if sourceToken = targetToken then .error (SolError.InvalidTokens, [])
  else if amount = 0 then .error (SolError.ZeroAmount, [])
  else if s.balancerVault = 0 then .error (SolError.InvalidVaultAddress, [])
  else if !(s.tokenConfigs sourceToken).isEnabled then .error (SolError.DisabledToken, [])
  else
  -- Diagnostics log (lines 344-352)
  let evts := [Event.StateLog 0 "ExpectedValues"
    ("First: " ++ int2str expectedFirstOutput ++ ", Second: " ++
     int2str expectedSecondOutput ++ ", TestMode: " ++ boolString testMode)]
  -- Execution id (lines 355-367)
  let executionId := deriveExecutionId sourceToken targetToken amount firstRouter
    secondRouter env.blockTimestamp env.blockNumber env.sender
  -- Store the callback context (lines 370-382)
  let s := storeFlashLoanContext s executionId (flashContextOf sourceToken targetToken
    amount firstSwapData secondSwapData firstRouter secondRouter testMode
    expectedFirstOutput expectedSecondOutput executionId)
  -- Initiation event (lines 385-391); Balancer charges no fee
  let evts := evts ++ [Event.FlashLoanEvent executionId 1 sourceToken amount 0]
  -- Pre-call balance probe (line 394)
  let calls : List ExtCall := [ExtCall.balanceOf sourceToken]
  -- The loan request itself (lines 407-412)
  let calls := calls ++ [ExtCall.flashLoan s.thisAddr [sourceToken] [amount] executionId]
  match vaultFlashLoanCall s env amount executionId with
  | .ok (s2, innerEvts) =>
    -- Success arm (lines 413-432)
    (match uAdd s2.metrics.flashLoanExecutions 1 with
     | .error e => .error (e, calls)
     | .ok fe =>
       match uAdd s2.metrics.flashLoanSuccessful 1 with
       | .error e => .error (e, calls)
       | .ok fsc =>
         let s2 := { s2 with metrics :=
           { s2.metrics with flashLoanExecutions := fe, flashLoanSuccessful := fsc } }
         let calls := calls ++ [ExtCall.balanceOf sourceToken]
         let finalBalance := env.postSuccessBalance
         let evts := evts ++ innerEvts ++ [Event.StateLog executionId "BalanceChange"
             ("Pre: " ++ uint2str env.preCallBalance ++ ", Post: " ++
              uint2str finalBalance),
           Event.StateLog executionId "FlashLoanComplete" "Success"]
         .ok (s2, evts, calls, finalBalance))
  | .error (SolError.Reason reason) =>
    -- catch Error(string) (lines 433-443)
    flashLoanCatchTail s (evts ++ [Event.StateLog executionId "FlashLoanError" reason])
      calls sourceToken executionId env
  | .error (SolError.Panic errorCode) =>
    -- catch Panic(uint) (lines 444-466)
    flashLoanCatchTail s
      (evts ++ [Event.StateLog executionId "FlashLoanPanic" (panicReason errorCode)])
      calls sourceToken executionId env
  | .error e =>
    -- catch (bytes) (lines 467-488)
    flashLoanCatchTail s
      (evts ++ [Event.StateLog executionId "FlashLoanLowLevelError"
        ("Error sig: " ++ errorSelector e)])
      calls sourceToken executionId env

/-- C6: with the contract not paused, `executeFlashLoanArbitrage` rejects —
with the original state (revert) and an empty external-call trace, hence
before any state mutation, fund movement, or external call — identical
tokens with `InvalidTokens`; then a zero amount with `ZeroAmount`; then
(with the immutable vault set, as the constructor guarantees) a disabled
source token with `DisabledToken`. -/
theorem C6_validation_errors (s : ContractState) (env : FlashEnv)
    (sourceToken targetToken : Address) (amount : Nat)
    (d1 d2 : String) (r1 r2 : Address) (tm : Bool) (e1 e2 : Int)
    (hp : s.paused = false) :
    (sourceToken = targetToken →
      executeFlashLoanArbitrage s env sourceToken targetToken amount d1 d2 r1 r2 tm e1 e2 =
        .error (SolError.InvalidTokens, [])) ∧
    (sourceToken ≠ targetToken → amount = 0 →
      executeFlashLoanArbitrage s env sourceToken targetToken amount d1 d2 r1 r2 tm e1 e2 =
        .error (SolError.ZeroAmount, [])) ∧
    (sourceToken ≠ targetToken → amount ≠ 0 → s.balancerVault ≠ 0 →
      (s.tokenConfigs sourceToken).isEnabled = false →
      executeFlashLoanArbitrage s env sourceToken targetToken amount d1 d2 r1 r2 tm e1 e2 =
        .error (SolError.DisabledToken, [])) := by
  refine ⟨?_, ?_, ?_⟩
  · intro h
    simp [executeFlashLoanArbitrage, hp, h]
  · intro h1 h2
    simp [executeFlashLoanArbitrage, hp, h1, h2]
  · intro h1 h2 h3 h4
    simp [executeFlashLoanArbitrage, hp, h1, h2, h3, h4]

/-- A concrete flash-loan environment whose lender call reverts with a
reason string. -/
def flashEnvFail : FlashEnv :=
  { blockTimestamp := 1000, blockNumber := 50, sender := 8, preCallBalance := 0,
    vaultFailure := some (SolError.Reason "BAL#528"), renv :=
      { sender := 5, arbEnv := arbEnvProfit, currentBalance := 100,
        ownerTransferSucceeds := false },
    flashLoanFee := 0, postSuccessBalance := 105, postFailureBalance := 3 }

/-- C6 witness: the three validation failures on concrete calls against a
fresh deployment (token 1 not enabled; the vault address is 5). -/
theorem C6_validation_errors_witness :
    executeFlashLoanArbitrage state0 flashEnvFail 1 1 100 "" "" 3 4 false 50 110 =
      .error (SolError.InvalidTokens, []) ∧
    executeFlashLoanArbitrage state0 flashEnvFail 1 2 0 "" "" 3 4 false 50 110 =
      .error (SolError.ZeroAmount, []) ∧
    executeFlashLoanArbitrage state0 flashEnvFail 1 2 100 "" "" 3 4 false 50 110 =
      .error (SolError.DisabledToken, []) :=
  ⟨(C6_validation_errors state0 flashEnvFail 1 1 100 "" "" 3 4 false 50 110 rfl).1 rfl,
    (C6_validation_errors state0 flashEnvFail 1 2 0 "" "" 3 4 false 50 110 rfl).2.1
      (by decide) rfl,
    (C6_validation_errors state0 flashEnvFail 1 2 100 "" "" 3 4 false 50 110 rfl).2.2
      (by decide) (by decide) (by decide) rfl⟩

theorem flashLoanCatchTail_spec (s : ContractState) (evts : List Event)
    (calls : List ExtCall) (sourceToken : Address) (executionId : Nat) (env : FlashEnv)
    (hb1 : s.metrics.flashLoanFailed + 1 < UINT256_MOD)
    (hb2 : s.metrics.flashLoanExecutions + 1 < UINT256_MOD) :
    ∃ st, flashLoanCatchTail s evts calls sourceToken executionId env =
        .ok (st, evts, calls ++ [ExtCall.balanceOf sourceToken], env.postFailureBalance) ∧
      st.metrics.flashLoanFailed = s.metrics.flashLoanFailed + 1 ∧
      st.metrics.flashLoanExecutions = s.metrics.flashLoanExecutions + 1 ∧
      st.metrics.flashLoanSuccessful = s.metrics.flashLoanSuccessful ∧
      st.metrics.totalProfit = s.metrics.totalProfit ∧
      st.metrics.flashLoanProfit = s.metrics.flashLoanProfit ∧
      st.flashLoanContexts executionId = default := by
  unfold flashLoanCatchTail
  rw [uAdd_ok hb1, uAdd_ok hb2]
  exact ⟨_, rfl, by simp, by simp, by simp, by simp, by simp, by simp [mapSet_same]⟩

/-- C4: when the lender's `flashLoan` call fails — the lender reverting
with a reason string, a panic, or any low-level error, or the callback it
runs reverting — `executeFlashLoanArbitrage` does not revert (assuming the
failure counters are below `2^256 - 1`, true of every reachable state): it
returns the contract's current source-token balance, increments both
`metrics.flashLoanFailed` and `metrics.flashLoanExecutions` (leaving
`flashLoanSuccessful` untouched), and deletes the `FlashLoanContext`
stored under the derived execution id. -/
theorem C4_flashloan_failure_nonfatal (s : ContractState) (env : FlashEnv)
    (sourceToken targetToken : Address) (amount : Nat) (d1 d2 : String)
    (r1 r2 : Address) (tm : Bool) (e1 e2 : Int) (e : SolError) (execId : Nat)
    (hp : s.paused = false) (ht : sourceToken ≠ targetToken) (ha : amount ≠ 0)
    (hv : s.balancerVault ≠ 0) (he : (s.tokenConfigs sourceToken).isEnabled = true)
    (hb1 : s.metrics.flashLoanFailed + 1 < UINT256_MOD)
    (hb2 : s.metrics.flashLoanExecutions + 1 < UINT256_MOD)
    (hid : execId = deriveExecutionId sourceToken targetToken amount r1 r2
      env.blockTimestamp env.blockNumber env.sender)
    (hfail : vaultFlashLoanCall (storeFlashLoanContext s execId
        (flashContextOf sourceToken targetToken amount d1 d2 r1 r2 tm e1 e2 execId))
        env amount execId = .error e) :
    ∃ st evts calls,
      executeFlashLoanArbitrage s env sourceToken targetToken amount d1 d2 r1 r2 tm e1 e2 =
        .ok (st, evts, calls, env.postFailureBalance) ∧
      st.metrics.flashLoanFailed = s.metrics.flashLoanFailed + 1 ∧
      st.metrics.flashLoanExecutions = s.metrics.flashLoanExecutions + 1 ∧
      st.metrics.flashLoanSuccessful = s.metrics.flashLoanSuccessful ∧
      st.flashLoanContexts execId = default := by
  subst hid
  have hrun : ∀ evts2 : List Event, ∀ calls2 : List ExtCall,
      ∃ st, flashLoanCatchTail (storeFlashLoanContext s
          (deriveExecutionId sourceToken targetToken amount r1 r2 env.blockTimestamp
            env.blockNumber env.sender)
          (flashContextOf sourceToken targetToken amount d1 d2 r1 r2 tm e1 e2
            (deriveExecutionId sourceToken targetToken amount r1 r2 env.blockTimestamp
              env.blockNumber env.sender))) evts2 calls2 sourceToken
          (deriveExecutionId sourceToken targetToken amount r1 r2 env.blockTimestamp
            env.blockNumber env.sender) env =
        .ok (st, evts2, calls2 ++ [ExtCall.balanceOf sourceToken],
          env.postFailureBalance) ∧
      st.metrics.flashLoanFailed = s.metrics.flashLoanFailed + 1 ∧
      st.metrics.flashLoanExecutions = s.metrics.flashLoanExecutions + 1 ∧
      st.metrics.flashLoanSuccessful = s.metrics.flashLoanSuccessful ∧
      st.flashLoanContexts (deriveExecutionId sourceToken targetToken amount r1 r2
        env.blockTimestamp env.blockNumber env.sender) = default := by
    intro evts2 calls2
    obtain ⟨st, hres, hm1, hm2, hm3, _, _, hctx⟩ := flashLoanCatchTail_spec
      (storeFlashLoanContext s _ _) evts2 calls2 sourceToken _ env hb1 hb2
    exact ⟨st, hres, hm1, hm2, hm3, hctx⟩
  simp only [executeFlashLoanArbitrage]
  rw [if_neg (by simp [hp]), if_neg ht, if_neg ha, if_neg hv, if_neg (by simp [he])]
  rw [hfail]
  cases e <;>
    exact ⟨_, _, _, (hrun _ _).choose_spec.1, (hrun _ _).choose_spec.2.1,
      (hrun _ _).choose_spec.2.2.1, (hrun _ _).choose_spec.2.2.2.1,
      (hrun _ _).choose_spec.2.2.2.2⟩

/-- `state0` with token 1 configured (owner call) and therefore enabled. -/
def stateTokenEnabled : ContractState :=
  commit state0 (configureToken state0 7 1 1000000 10 6)

set_option maxRecDepth 100000 in
/-- C4 witness: a concrete call whose lender reverts with reason
`"BAL#528"`; the request layer commits, returns the probed balance,
increments the failure counters, and deletes the stored context. -/
theorem C4_flashloan_failure_nonfatal_witness :
    ∃ st evts calls,
      executeFlashLoanArbitrage stateTokenEnabled flashEnvFail 1 2 100 "" "" 3 4
          false 50 110 =
        .ok (st, evts, calls, flashEnvFail.postFailureBalance) ∧
      st.metrics.flashLoanFailed = stateTokenEnabled.metrics.flashLoanFailed + 1 ∧
      st.metrics.flashLoanExecutions = stateTokenEnabled.metrics.flashLoanExecutions + 1 ∧
      st.metrics.flashLoanSuccessful = stateTokenEnabled.metrics.flashLoanSuccessful ∧
      st.flashLoanContexts (deriveExecutionId 1 2 100 3 4 1000 50 8) = default :=
  C4_flashloan_failure_nonfatal stateTokenEnabled flashEnvFail 1 2 100 "" "" 3 4 false 50 110
    (SolError.Reason "BAL#528") (deriveExecutionId 1 2 100 3 4 1000 50 8)
    (by decide) (by decide) (by decide) (by decide) (by decide) (by decide) (by decide)
    rfl rfl

/-! ## Metrics lemmas for the orchestrator -/

theorem receiveFlashLoanTail_metrics (s : ContractState) (evts : List Event)
    (context : FlashLoanContext) (executionId : Nat) (env : ReceiveEnv)
    (amounts feeAmounts : List Nat) (profit : Int) (st : ContractState)
    (evts2 : List Event)
    (h : receiveFlashLoanTail s evts context executionId env amounts feeAmounts profit =
      .ok (st, evts2)) : st.metrics = s.metrics := by
  simp only [receiveFlashLoanTail, receiveFlashLoanFinish] at h
  repeat' split at h
  all_goals try (exact Except.noConfusion h)
  all_goals (
    simp only [Except.ok.injEq, Prod.mk.injEq] at h
    obtain ⟨h1, h2⟩ := h
    subst h1
    rfl)

theorem addFlashLoanProfit_metrics (s : ContractState) (evts : List Event)
    (executionId : Nat) (success : Bool) (profit : Int) (st : ContractState)
    (evts2 : List Event)
    (h : addFlashLoanProfit s evts executionId success profit = .ok (st, evts2)) :
    st.metrics.flashLoanProfit = s.metrics.flashLoanProfit +
      (if success = true ∧ 0 < profit then profit.toNat else 0) ∧
    st.metrics.totalProfit = s.metrics.totalProfit := by
  unfold addFlashLoanProfit at h
  repeat' split at h
  all_goals try (exact Except.noConfusion h)
  all_goals (
    simp only [Except.ok.injEq, Prod.mk.injEq] at h
    obtain ⟨h1, h2⟩ := h
    subst h1
    constructor
    · simp_all [uAdd_ok_iff]
    · rfl)

/-- The profit the wrapped engine run would add to the cumulative
counters: its returned profit when it commits positively, else `0`. -/
def arbGainOfWrapper (s : ContractState) (env : ReceiveEnv) (userData : Nat) : Nat :=
  match executeArbitrageWrapper s env.arbEnv s.thisAddr
      (contextParams (s.flashLoanContexts userData) userData) with
  | .ok (_, _, r) => if 0 < r then r.toNat else 0
  | .error _ => 0

theorem receiveFlashLoan_metrics (s : ContractState) (env : ReceiveEnv)
    (amounts feeAmounts : List Nat) (userData : Nat) (st : ContractState)
    (evts : List Event)
    (h : receiveFlashLoan s env amounts feeAmounts userData = .ok (st, evts)) :
    st.metrics.totalProfit = s.metrics.totalProfit + arbGainOfWrapper s env userData ∧
    st.metrics.flashLoanProfit =
      s.metrics.flashLoanProfit + arbGainOfWrapper s env userData := by
  simp only [receiveFlashLoan] at h
  split at h
  · exact Except.noConfusion h
  · split at h
    · exact Except.noConfusion h
    · split at h
      case _ st1 ie r heq =>
        -- the arbitrage committed
        have hinner : executeArbitrageInternal s env.arbEnv
            (contextParams (s.flashLoanContexts userData) userData) = .ok (st1, ie, r) := by
          unfold executeArbitrageWrapper at heq
          simpa using heq
        have hspec := executeArbitrageInternal_ok_spec _ _ _ _ _ _ hinner
        have hgain : arbGainOfWrapper s env userData = if 0 < r then r.toNat else 0 := by
          unfold arbGainOfWrapper executeArbitrageWrapper
          simp [hinner]
        split at h
        · exact Except.noConfusion h
        case _ st2 evts2 heq2 =>
          have hadd := addFlashLoanProfit_metrics _ _ _ _ _ _ _ heq2
          have htail := receiveFlashLoanTail_metrics _ _ _ _ _ _ _ _ _ _ h
          rw [hgain]
          constructor
          · rw [htail, hadd.2, hspec.1]
          · rw [htail, hadd.1, hspec.2.1]
            simp
      case _ e heq =>
        -- the arbitrage reverted and was caught
        have hgain : arbGainOfWrapper s env userData = 0 := by
          unfold arbGainOfWrapper executeArbitrageWrapper
          unfold executeArbitrageWrapper at heq
          simp only [ne_eq, not_true_eq_false, if_neg] at heq ⊢
          simp at heq
          simp [heq]
        split at h
        · exact Except.noConfusion h
        case _ st2 evts2 heq2 =>
          have hadd := addFlashLoanProfit_metrics _ _ _ _ _ _ _ heq2
          have htail := receiveFlashLoanTail_metrics _ _ _ _ _ _ _ _ _ _ h
          rw [hgain]
          constructor
          · rw [htail, hadd.2]
            rfl
          · rw [htail, hadd.1]
            simp [catchArb, setTradeContextExecutedFalse]

theorem flashLoanCatchTail_ok_profits (s : ContractState) (evts : List Event)
    (calls : List ExtCall) (tok : Address) (id : Nat) (env : FlashEnv)
    (st : ContractState) (evts2 : List Event) (calls2 : List ExtCall) (n : Nat)
    (h : flashLoanCatchTail s evts calls tok id env = .ok (st, evts2, calls2, n)) :
    st.metrics.totalProfit = s.metrics.totalProfit ∧
    st.metrics.flashLoanProfit = s.metrics.flashLoanProfit := by
  unfold flashLoanCatchTail at h
  repeat' split at h
  all_goals try (exact Except.noConfusion h)
  all_goals (
    simp only [Except.ok.injEq, Prod.mk.injEq] at h
    obtain ⟨h1, h2⟩ := h
    subst h1
    exact ⟨rfl, rfl⟩)

set_option maxHeartbeats 1600000 in
theorem executeFlashLoanArbitrage_ok_metrics (s : ContractState) (env : FlashEnv)
    (sourceToken targetToken : Address) (amount : Nat) (d1 d2 : String)
    (r1 r2 : Address) (tm : Bool) (e1 e2 : Int)
    (st : ContractState) (evts : List Event) (calls : List ExtCall) (ret : Nat)
    (h : executeFlashLoanArbitrage s env sourceToken targetToken amount d1 d2 r1 r2
      tm e1 e2 = .ok (st, evts, calls, ret)) :
    s.metrics.totalProfit ≤ st.metrics.totalProfit ∧
    s.metrics.flashLoanProfit ≤ st.metrics.flashLoanProfit := by
  simp only [executeFlashLoanArbitrage] at h
  split at h
  · exact Except.noConfusion h
  split at h
  · exact Except.noConfusion h
  split at h
  · exact Except.noConfusion h
  split at h
  · exact Except.noConfusion h
  split at h
  · exact Except.noConfusion h
  cases hvc : vaultFlashLoanCall (storeFlashLoanContext s
      (deriveExecutionId sourceToken targetToken amount r1 r2 env.blockTimestamp
        env.blockNumber env.sender)
      (flashContextOf sourceToken targetToken amount d1 d2 r1 r2 tm e1 e2
        (deriveExecutionId sourceToken targetToken amount r1 r2 env.blockTimestamp
          env.blockNumber env.sender)))
      env amount (deriveExecutionId sourceToken targetToken amount r1 r2
        env.blockTimestamp env.blockNumber env.sender) with
  | ok out =>
    obtain ⟨s2, innerEvts⟩ := out
    have hrecv : s2.metrics.totalProfit ≥ s.metrics.totalProfit ∧
        s2.metrics.flashLoanProfit ≥ s.metrics.flashLoanProfit := by
      unfold vaultFlashLoanCall at hvc
      split at hvc
      · exact Except.noConfusion hvc
      · have hm := receiveFlashLoan_metrics _ _ _ _ _ _ _ hvc
        constructor
        · rw [hm.1]; simp [storeFlashLoanContext]
        · rw [hm.2]; simp [storeFlashLoanContext]
    rw [hvc] at h
    simp only [] at h
    repeat' split at h
    all_goals try (exact Except.noConfusion h)
    all_goals (
      simp only [Except.ok.injEq, Prod.mk.injEq] at h
      obtain ⟨h1, h2, h3, h4⟩ := h
      subst h1
      exact ⟨le_trans hrecv.1 (by simp), le_trans hrecv.2 (by simp)⟩)
  | error e =>
    rw [hvc] at h
    cases e <;>
      (have hk := flashLoanCatchTail_ok_profits _ _ _ _ _ _ _ _ _ _ h
       exact ⟨le_of_eq hk.1.symm, le_of_eq hk.2.symm⟩)

theorem configureDex_metrics (s : ContractState) (sender : Address) (dexName : String)
    (router : Address) (fee gas : Nat) (tiers : List Nat) :
    (commit s (configureDex s sender dexName router fee gas tiers)).metrics = s.metrics := by
  unfold commit
  cases h : configureDex s sender dexName router fee gas tiers with
  | error e => rfl
  | ok out =>
    obtain ⟨st, evts⟩ := out
    simp only [configureDex] at h
    repeat' split at h
    all_goals try (exact Except.noConfusion h)
    all_goals (
      simp only [Except.ok.injEq, Prod.mk.injEq] at h
      obtain ⟨h1, h2⟩ := h
      subst h1
      rfl)

theorem configurePool_metrics (s : ContractState) (sender : Address) (pool : Address)
    (fee minLiq : Nat) (dexName : String) :
    (commit s (configurePool s sender pool fee minLiq dexName)).metrics = s.metrics := by
  unfold commit
  cases h : configurePool s sender pool fee minLiq dexName with
  | error e => rfl
  | ok out =>
    obtain ⟨st, evts⟩ := out
    simp only [configurePool] at h
    repeat' split at h
    all_goals try (exact Except.noConfusion h)
    all_goals (
      simp only [Except.ok.injEq, Prod.mk.injEq] at h
      obtain ⟨h1, h2⟩ := h
      subst h1
      rfl)

theorem configureToken_metrics (s : ContractState) (sender : Address) (token : Address)
    (maxA minA d : Nat) :
    (commit s (configureToken s sender token maxA minA d)).metrics = s.metrics := by
  unfold commit
  cases h : configureToken s sender token maxA minA d with
  | error e => rfl
  | ok out =>
    obtain ⟨st, evts⟩ := out
    simp only [configureToken] at h
    repeat' split at h
    all_goals try (exact Except.noConfusion h)
    all_goals (
      simp only [Except.ok.injEq, Prod.mk.injEq] at h
      obtain ⟨h1, h2⟩ := h
      subst h1
      rfl)

theorem setTokenEnabled_metrics (s : ContractState) (sender : Address) (token : Address)
    (b : Bool) :
    (commit s (setTokenEnabled s sender token b)).metrics = s.metrics := by
  unfold commit
  cases h : setTokenEnabled s sender token b with
  | error e => rfl
  | ok out =>
    obtain ⟨st, evts⟩ := out
    simp only [setTokenEnabled] at h
    repeat' split at h
    all_goals try (exact Except.noConfusion h)
    all_goals (
      simp only [Except.ok.injEq, Prod.mk.injEq] at h
      obtain ⟨h1, h2⟩ := h
      subst h1
      rfl)

theorem setDexEnabled_metrics (s : ContractState) (sender : Address) (dexName : String)
    (b : Bool) :
    (commit s (setDexEnabled s sender dexName b)).metrics = s.metrics := by
  unfold commit
  cases h : setDexEnabled s sender dexName b with
  | error e => rfl
  | ok out =>
    obtain ⟨st, evts⟩ := out
    simp only [setDexEnabled] at h
    repeat' split at h
    all_goals try (exact Except.noConfusion h)
    all_goals (
      simp only [Except.ok.injEq, Prod.mk.injEq] at h
      obtain ⟨h1, h2⟩ := h
      subst h1
      rfl)

/-- Caller-observed state of a `receiveFlashLoan` call. -/
def recvState (s : ContractState) (env : ReceiveEnv) (amounts feeAmounts : List Nat)
    (userData : Nat) : ContractState :=
  commit s (receiveFlashLoan s env amounts feeAmounts userData)

/-- The amount a `receiveFlashLoan` call adds to both cumulative profit
counters: the wrapped arbitrage's strictly positive committed profit when
the callback itself commits, `0` otherwise. -/
def receiveProfitGain (s : ContractState) (env : ReceiveEnv) (amounts feeAmounts : List Nat)
    (userData : Nat) : Nat :=
  match receiveFlashLoan s env amounts feeAmounts userData with
  | .error _ => 0
  | .ok _ => arbGainOfWrapper s env userData

/-- Caller-observed state of an `executeFlashLoanArbitrage` call. -/
def flashState (s : ContractState) (env : FlashEnv) (sourceToken targetToken : Address)
    (amount : Nat) (d1 d2 : String) (r1 r2 : Address) (tm : Bool) (e1 e2 : Int) :
    ContractState :=
  match executeFlashLoanArbitrage s env sourceToken targetToken amount d1 d2 r1 r2
    tm e1 e2 with
  | .ok (st, _, _, _) => st
  | .error _ => s

/-- C7: the cumulative profit counters `metrics.totalProfit` and
`metrics.flashLoanProfit` are never decremented.  The arbitrage engine adds
to `totalProfit` exactly `arbProfitGain` — the committed trade's profit
when strictly positive, `0` otherwise — and never touches
`flashLoanProfit`; the flash-loan callback adds exactly
`receiveProfitGain` — the wrapped trade's strictly positive profit —
to both counters; the flash-loan request layer never decreases either; and
every configuration operation leaves the metrics unchanged. -/
theorem C7_cumulative_profit_monotone :
    (∀ (s : ContractState) (env : ArbEnv) (params : ArbitrageParams),
      (arbState s env params).metrics.totalProfit =
        s.metrics.totalProfit + arbProfitGain s env params ∧
      (arbState s env params).metrics.flashLoanProfit = s.metrics.flashLoanProfit) ∧
    (∀ (s : ContractState) (env : ReceiveEnv) (amounts feeAmounts : List Nat)
       (userData : Nat),
      (recvState s env amounts feeAmounts userData).metrics.totalProfit =
        s.metrics.totalProfit + receiveProfitGain s env amounts feeAmounts userData ∧
      (recvState s env amounts feeAmounts userData).metrics.flashLoanProfit =
        s.metrics.flashLoanProfit + receiveProfitGain s env amounts feeAmounts userData) ∧
    (∀ (s : ContractState) (env : FlashEnv) (sourceToken targetToken : Address)
       (amount : Nat) (d1 d2 : String) (r1 r2 : Address) (tm : Bool) (e1 e2 : Int),
      s.metrics.totalProfit ≤
        (flashState s env sourceToken targetToken amount d1 d2 r1 r2 tm e1 e2).metrics.totalProfit ∧
      s.metrics.flashLoanProfit ≤
        (flashState s env sourceToken targetToken amount d1 d2 r1 r2 tm e1 e2).metrics.flashLoanProfit) ∧
    (∀ (s : ContractState) (sender : Address) (dexName : String) (router : Address)
       (fee gas : Nat) (tiers : List Nat) (pool token : Address) (maxA minA d : Nat)
       (b : Bool),
      (commit s (configureDex s sender dexName router fee gas tiers)).metrics = s.metrics ∧
      (commit s (configurePool s sender pool fee minLiq dexName)).metrics = s.metrics ∧
      (commit s (configureToken s sender token maxA minA d)).metrics = s.metrics ∧
      (commit s (setTokenEnabled s sender token b)).metrics = s.metrics ∧
      (commit s (setDexEnabled s sender dexName b)).metrics = s.metrics) := by
  refine ⟨?_, ?_, ?_, ?_⟩
  · intro s env params
    unfold arbState arbProfitGain
    cases h : executeArbitrageInternal s env params with
    | error e => simp
    | ok out =>
      obtain ⟨st, evts, r⟩ := out
      have hspec := executeArbitrageInternal_ok_spec s env params st evts r h
      exact ⟨hspec.1, hspec.2.1⟩
  · intro s env amounts feeAmounts userData
    unfold recvState receiveProfitGain commit
    cases h : receiveFlashLoan s env amounts feeAmounts userData with
    | error e => simp
    | ok out =>
      obtain ⟨st, evts⟩ := out
      exact receiveFlashLoan_metrics _ _ _ _ _ _ _ h
  · intro s env sourceToken targetToken amount d1 d2 r1 r2 tm e1 e2
    unfold flashState
    cases h : executeFlashLoanArbitrage s env sourceToken targetToken amount d1 d2 r1 r2
        tm e1 e2 with
    | error e => exact ⟨le_refl _, le_refl _⟩
    | ok out =>
      obtain ⟨st, evts, calls, ret⟩ := out
      exact executeFlashLoanArbitrage_ok_metrics _ _ _ _ _ _ _ _ _ _ _ _ _ _ _ _ h
  · intro s sender dexName router fee gas tiers pool token maxA minA d b
    exact ⟨configureDex_metrics s sender dexName router fee gas tiers,
      configurePool_metrics s sender pool fee minLiq dexName,
      configureToken_metrics s sender token maxA minA d,
      setTokenEnabled_metrics s sender token b,
      setDexEnabled_metrics s sender dexName b⟩
